import Mathlib

/-!
# N: device command processor (`lib/device/sio/network.cpp`)

A shallow embedding of `sioNetwork`: the object's members become the fields of
`State`, every member function becomes a function on `State`, and everything the
object observes from code outside this translation unit (the bus, the protocol
handler, the URL parser, the allocator, the JSON helper) is supplied through a
per-call record `Ext`.  Bus signals and calls into collaborators are appended, in
program order, to `State.log`.

Byte values are natural numbers; the opcodes are written as in the source
(`'O'` is 79, `'C'` is 67, `'R'` is 82, `'W'` is 87, `'S'` is 83, `'P'` is 80,
`'Q'` is 81, `'N'` is 78, `'T'` is 84, `'Z'` is 90).
-/

namespace SioNetwork

/-! ## Data model -/

/-- The three channel modes (`channelMode`). -/
inductive ChannelMode where
  | PROTOCOL
  | JSON
  | NEON
  deriving DecidableEq, Repr

/-- A raw owning pointer: never assigned or reset (`null`), pointing to a live
object (`live`), or still holding the address of an object that was freed
(`dangling`). -/
inductive Ptr where
  | null
  | live
  | dangling
  deriving DecidableEq, Repr

/-- Undefined behaviour the C++ can run into; the embedding stops there. -/
inductive Fault where
  | nullDeref
  | useAfterFree
  | doubleFree
  | outOfRange
  | unterminated
  | uninitialised
  deriving DecidableEq, Repr

/-- The `NetworkStatus` record: `rxBytesWaiting` (16 bit), `connected`, `error`. -/
structure NetworkStatus where
  rxBytesWaiting : Nat
  connected : Nat
  error : Nat
  deriving DecidableEq, Repr

/-- The flags of a `NetworkProtocol` object that `sioNetwork` reads or writes.
The handler's `error` member is read once, right after a failed `open`; that
value is `Ext.protocolError`. -/
structure Protocol where
  forceStatus : Bool
  interruptEnable : Bool
  fromInterrupt : Bool
  deriving DecidableEq, Repr

/-- The command frame: device id, opcode and the two auxiliary bytes. -/
structure Frame where
  device : Nat
  comnd : Nat
  aux1 : Nat
  aux2 : Nat
  deriving DecidableEq, Repr

/-- What happens on the bus and at the collaborators, in program order. -/
inductive Event where
  | ack
  | nak
  | complete
  | error
  | toComputer (bytes : List Nat) (len : Nat)
  | toPeripheral (len : Nat)
  | timerStart
  | timerStop
  | created
  | popen
  | pclose
  | pdelete
  | pread (n : Nat)
  | pwrite (n : Nat)
  | pstatus
  | pinquiry (c : Nat)
  | pspecial00
  | pspecial40
  | pspecial80
  | pidempotent80
  | forceStatus (b : Bool)
  | proceed (level : Bool)
  | jsonNew
  | jsonParse
  | jsonQuery
  | neonNew
  | neonParse
  deriving DecidableEq, Repr

/-- The members of `sioNetwork`, with the event log.  `neonDoc` is the `_doc`
member of the `NeonMake` helper; `helperTarget` is the state of the handler object
both helpers were wired to by `setProtocol` and `helperCurrent` tells whether that
object is the one `protocol` points to. -/
structure State where
  protocol : Option Protocol
  protocolParser : Bool
  json : Ptr
  neon : Ptr
  newData : Ptr
  channelMode : ChannelMode
  rateTimerHandle : Bool
  interruptProceed : Bool
  timerRate : Nat
  status : NetworkStatus
  receiveBuffer : List Nat
  transmitBuffer : List Nat
  specialBuffer : List Nat
  pfx : List Nat
  login : List Nat
  password : List Nat
  cmdFrame : Frame
  open_aux1 : Nat
  open_aux2 : Nat
  trans_aux2 : Nat
  inq_dstats : Nat
  json_bytes_remaining : Nat
  neon_bytes_remaining : Nat
  neonDoc : List Nat
  helperTarget : Ptr
  helperCurrent : Bool
  reservedSave : Nat
  errorSave : Nat
  log : List Event
  deriving DecidableEq, Repr

/-- Everything one call observes from outside `network.cpp`: allocator verdict,
the data frame the host sends, the URL parser's verdict, the handler the
registry creates, the handler's return values, and the helpers' outputs. -/
structure Ext where
  mallocOk : Bool
  payload : List Nat
  validUrl : Bool
  created : Option Protocol
  openRet : Bool
  protocolError : Nat
  closeRet : Bool
  readRet : Bool
  readData : List Nat
  writeRet : Bool
  writeLeft : List Nat → List Nat
  statusRet : Bool
  statusOut : NetworkStatus
  inquiry : Nat
  special00Ret : Bool
  special40Ret : Bool
  special40Data : List Nat
  special80Ret : Bool
  idempotentRet : Bool
  jsonValue : List Nat
  adfChunks : List (List Nat)
  ipAddress : List Nat
  ipNetmask : List Nat
  ipGateway : List Nat
  ipDNS : List Nat
  hsIndex : Nat
  canonical : List Nat → List Nat

/-! ## Constants of headers outside `src/` -/

/-- Modelled from the spec: `status_error_codes.h` is not part of the sources;
the error table gives "1 General error". -/
def NETWORK_ERROR_GENERAL : Nat := 1

/-- Modelled from the spec: `status_error_codes.h` is not part of the sources;
the error table gives "165 Invalid devicespec" (the source comment agrees:
"Invalid URL returns error 165 in status"). -/
def NETWORK_ERROR_INVALID_DEVICESPEC : Nat := 165

/-- Modelled from the spec: `status_error_codes.h` is not part of the sources and
the spec leaves this code "lib-defined"; no statement below depends on the value
chosen here. -/
def NETWORK_ERROR_NOT_CONNECTED : Nat := 207

/-- Modelled from the spec: `status_error_codes.h` is not part of the sources and
the spec leaves this code "lib-defined"; no statement below depends on the value
chosen here. -/
def NETWORK_ERROR_COULD_NOT_ALLOCATE_BUFFERS : Nat := 129

/-- Size of the devicespec and special frames (`SPECIAL_BUFFER_SIZE`, 256 in the
spec: "256 for specials"). -/
def SPECIAL_BUFFER_SIZE : Nat := 256

/-- Modelled from the spec: `NetworkStatus::reset` lives in a header outside the
sources; "Reset status" clears the three fields. -/
def NetworkStatus.reset : NetworkStatus :=
  { rxBytesWaiting := 0, connected := 0, error := 0 }

/-! ## Bus primitives (base class, outside `src/`) -/

/-- Append one event to the log. -/
def emit (s : State) (e : Event) : State :=
  { s with log := s.log ++ [e] }

/-- Modelled from the spec: `sio_ack` of the bus base class sends ACK. -/
def sio_ack (s : State) : State := emit s Event.ack

/-- Modelled from the spec: `sio_nak` of the bus base class sends NAK. -/
def sio_nak (s : State) : State := emit s Event.nak

/-- Modelled from the spec: `sio_complete` of the bus base class sends COMPLETE. -/
def sio_complete (s : State) : State := emit s Event.complete

/-- Modelled from the spec: `sio_error` of the bus base class sends ERROR. -/
def sio_error (s : State) : State := emit s Event.error

/-- Modelled from the spec: `bus_to_computer(buf, len, err)` of the bus base
class answers ERROR when `err` and COMPLETE otherwise, then sends the data frame
of `len` bytes. -/
def bus_to_computer (s : State) (buf : List Nat) (len : Nat) (err : Bool) : State :=
  emit (if err then sio_error s else sio_complete s) (Event.toComputer buf len)

/-- Modelled from the spec: `bus_to_peripheral(buf, len)` of the bus base class
receives a data frame of exactly `len` bytes from the host. -/
def bus_to_peripheral (s : State) (x : Ext) (len : Nat) : State × List Nat :=
  (emit s (Event.toPeripheral len), (x.payload ++ List.replicate len 0).take len)

/-- Modelled from the spec: `sio_get_aux` of the bus base class,
"n = aux2*256 + aux1". -/
def sio_get_aux (s : State) : Nat := s.cmdFrame.aux2 * 256 + s.cmdFrame.aux1

/-- Modelled from the spec: `sio_high_speed` of the bus base class ("negotiate
alt baud") answers with one byte. -/
def sio_high_speed (s : State) (x : Ext) : State :=
  bus_to_computer s [x.hsIndex] 1 false

/-- Only the four bus signals of a log. -/
def isSignal : Event → Bool
  | Event.ack => true
  | Event.nak => true
  | Event.complete => true
  | Event.error => true
  | _ => false

/-- The bus signals of a log, in order. -/
def signals (l : List Event) : List Event := l.filter isSignal

/-! ## Timer -/

/-- `timer_start`: creates and starts the periodic timer. -/
def timer_start (s : State) : State :=
  emit { s with rateTimerHandle := true } Event.timerStart

/-- `timer_stop`: deletes the timer when one exists. -/
def timer_stop (s : State) : State :=
  if s.rateTimerHandle then emit { s with rateTimerHandle := false } Event.timerStop
  else s

/-- `onTimer`: the timer callback toggles `interruptProceed`. -/
def onTimer (s : State) : State :=
  { s with interruptProceed := !s.interruptProceed }

/-! ## Protocol instantiation -/

/-- `delete protocol; protocol = nullptr`: the handler object is destroyed, so
helpers wired to it are left with a stale pointer. -/
def delete_protocol (s : State) : State :=
  let s := emit { s with protocol := none } Event.pdelete
  if s.helperCurrent then { s with helperTarget := Ptr.dangling, helperCurrent := false } else s

/-- `instantiate_protocol`: make sure a parser exists and ask it for a handler.
The assignment overwrites `protocol` without deleting what it pointed to. -/
def instantiate_protocol (s : State) (x : Ext) : State × Bool :=
  let s := { s with protocolParser := true }
  let s := { s with helperCurrent := false }
  match x.created with
  | none => ({ s with protocol := none }, false)
  | some p => (emit { s with protocol := some p } Event.created, true)

/-- `create_devicespec`: receive the 256-byte devicespec frame.  The string
produced by `util_devicespec_fix_for_parsing` and the URL parsed from it are
built by code outside the sources; `Ext.validUrl` is the parser's verdict. -/
def create_devicespec (s : State) (x : Ext) : State :=
  (bus_to_peripheral s x SPECIAL_BUFFER_SIZE).1

/-- `parse_and_instantiate_protocol`. -/
def parse_and_instantiate_protocol (s : State) (x : Ext) : State :=
  let s := create_devicespec s x
  if !x.validUrl then
    sio_error { s with status := { s.status with error := NETWORK_ERROR_INVALID_DEVICESPEC } }
  else
    let r := instantiate_protocol s x
    if !r.2 then
      sio_error { r.1 with status := { r.1.status with error := NETWORK_ERROR_GENERAL } }
    else r.1

/-! ## Open and Close -/

/-- `if (p) delete p;` / `if (p) free(p);` on a pointer that is not reset
afterwards: releasing what was already released is a fault. -/
def release (p : Ptr) : Except Fault Ptr :=
  match p with
  | Ptr.null => .ok Ptr.null
  | Ptr.live => .ok Ptr.dangling
  | Ptr.dangling => .error Fault.doubleFree

/-- `sio_open`, first part: from the ACK up to `status.reset()` (scratch
allocation, mode reset, timer stop, aux bytes, shutdown of a live handler). -/
def sio_open_prelude (s : State) (x : Ext) : State :=
  let s := sio_ack s
  let s := { s with newData := if x.mallocOk then Ptr.live else Ptr.null }
  let s := if s.newData = Ptr.null then sio_error s else s
  let s := { s with channelMode := ChannelMode.PROTOCOL }
  let s := timer_stop s
  let s := { s with open_aux1 := s.cmdFrame.aux1,
                    open_aux2 := s.cmdFrame.aux2 ||| s.trans_aux2,
                    cmdFrame := { s.cmdFrame with aux2 := s.cmdFrame.aux2 ||| s.trans_aux2 } }
  let s := match s.protocol with
    | some _ => delete_protocol (emit s Event.pclose)
    | none => s
  let s := { s with protocolParser := false }
  { s with status := NetworkStatus.reset }

/-- `sio_open`, second part: what follows `parse_and_instantiate_protocol()`. -/
def sio_open_finish (s : State) (x : Ext) : State :=
  match s.protocol with
  | none =>
    let s := { s with protocolParser := false }
    let s := if s.newData = Ptr.live then { s with newData := Ptr.dangling } else s
    sio_error s
  | some p =>
    let s := emit s Event.popen
    if x.openRet then
      let s := { s with status := { s.status with error := x.protocolError } }
      let s := delete_protocol s
      let s := { s with protocolParser := false }
      let s := if s.newData = Ptr.live then { s with newData := Ptr.dangling } else s
      sio_error s
    else
      let s := timer_start s
      let s := emit { s with protocol := some { p with forceStatus := true } }
        (Event.forceStatus true)
      let s := emit { s with json := Ptr.live } Event.jsonNew
      let s := emit { s with neon := Ptr.live, neonDoc := [] } Event.neonNew
      let s := { s with helperTarget := Ptr.live, helperCurrent := true }
      let s := { s with channelMode := ChannelMode.PROTOCOL }
      sio_complete s

/-- `sio_open`: the first part, `parse_and_instantiate_protocol()`, the second
part. -/
def sio_open (s : State) (x : Ext) : State :=
  sio_open_finish (parse_and_instantiate_protocol (sio_open_prelude s x) x) x

/-- `sio_close`.  The handler is closed and deleted; the two helpers and the
write scratch are released without resetting their pointers. -/
def sio_close (s : State) (x : Ext) : Except Fault State :=
  let s := sio_ack s
  let s := { s with status := NetworkStatus.reset }
  let s := { s with protocolParser := false }
  match s.protocol with
  | none => .ok (sio_complete s)
  | some _ =>
    let s := emit s Event.pclose
    let s := if x.closeRet then sio_error s else sio_complete s
    let s := delete_protocol s
    match release s.json, release s.neon, release s.newData with
    | .ok j, .ok n, .ok d => .ok { s with json := j, neon := n, newData := d }
    | .error e, _, _ => .error e
    | _, .error e, _ => .error e
    | _, _, .error e => .error e

/-! ## Read, Write, Status -/

/-- `sio_read_channel_json`: account `num_bytes` against `json_bytes_remaining`. -/
def sio_read_channel_json (s : State) (num_bytes : Nat) : State × Bool :=
  if num_bytes > s.json_bytes_remaining then ({ s with json_bytes_remaining := 0 }, false)
  else ({ s with json_bytes_remaining := s.json_bytes_remaining - num_bytes }, false)

/-- `sio_read_channel_neon`: account `num_bytes` against `neon_bytes_remaining`. -/
def sio_read_channel_neon (s : State) (num_bytes : Nat) : State × Bool :=
  if num_bytes > s.neon_bytes_remaining then ({ s with neon_bytes_remaining := 0 }, false)
  else ({ s with neon_bytes_remaining := s.neon_bytes_remaining - num_bytes }, false)

/-- `sio_read_channel`: dispatch on the channel mode.  In protocol mode the
handler's `read` appends `Ext.readData` to the receive buffer. -/
def sio_read_channel (s : State) (x : Ext) (num_bytes : Nat) : State × Bool :=
  match s.channelMode with
  | ChannelMode.PROTOCOL =>
    (emit { s with receiveBuffer := s.receiveBuffer ++ x.readData } (Event.pread num_bytes),
      x.readRet)
  | ChannelMode.JSON => sio_read_channel_json s num_bytes
  | ChannelMode.NEON => sio_read_channel_neon s num_bytes

/-- `sio_read`.  The bytes handed to the bus are the `num_bytes` bytes starting at
`receiveBuffer->data()`; a `std::string` of size `n` owns `n + 1` readable bytes
(the content and a terminating NUL), reading further is a fault.  The constructor
allocates `receiveBuffer` and nothing reassigns it, so the null test never fires. -/
def sio_read (s : State) (x : Ext) : Except Fault State :=
  let num_bytes := sio_get_aux s
  let s := sio_ack s
  match s.protocol with
  | none =>
    let s := { s with protocolParser := false }
    let s := { s with status := { s.status with error := NETWORK_ERROR_NOT_CONNECTED } }
    .ok (sio_error s)
  | some _ =>
    let r := sio_read_channel s x num_bytes
    let s := r.1
    if num_bytes ≤ s.receiveBuffer.length + 1 then
      let s := bus_to_computer s ((s.receiveBuffer ++ [0]).take num_bytes) num_bytes r.2
      .ok { s with receiveBuffer := s.receiveBuffer.drop num_bytes }
    else .error Fault.outOfRange

/-- `sio_write_channel`: dispatch on the channel mode.  In protocol mode the
handler's `write` leaves `Ext.writeLeft` of the transmit buffer. -/
def sio_write_channel (s : State) (x : Ext) (num_bytes : Nat) : State × Bool :=
  match s.channelMode with
  | ChannelMode.PROTOCOL =>
    (emit { s with transmitBuffer := x.writeLeft s.transmitBuffer } (Event.pwrite num_bytes),
      x.writeRet)
  | ChannelMode.JSON => (s, true)
  | ChannelMode.NEON => (s, true)

/-- `sio_write`. -/
def sio_write (s : State) (x : Ext) : Except Fault State :=
  let num_bytes := sio_get_aux s
  if s.newData = Ptr.null then .ok (sio_error s)
  else
    let s := sio_ack s
    match s.protocol with
    | none =>
      let s := { s with protocolParser := false }
      let s := { s with status := { s.status with error := NETWORK_ERROR_NOT_CONNECTED } }
      .ok (sio_error s)
    | some _ =>
      if s.newData = Ptr.dangling then .error Fault.useAfterFree
      else
        let r := bus_to_peripheral s x num_bytes
        let s := { r.1 with transmitBuffer := r.1.transmitBuffer ++ r.2 }
        let w := sio_write_channel s x num_bytes
        if w.2 = false then .ok (sio_complete w.1) else .ok (sio_error w.1)

/-- `sio_status_local`: status without a handler, selected by `aux2`. -/
def sio_status_local (s : State) (x : Ext) : State :=
  if s.cmdFrame.aux2 = 1 then bus_to_computer s x.ipAddress 4 false
  else if s.cmdFrame.aux2 = 2 then bus_to_computer s x.ipNetmask 4 false
  else if s.cmdFrame.aux2 = 3 then bus_to_computer s x.ipGateway 4 false
  else if s.cmdFrame.aux2 = 4 then bus_to_computer s x.ipDNS 4 false
  else bus_to_computer s [0, 0, s.status.connected, s.status.error] 4 false

/-- `sio_status_channel_json`. -/
def sio_status_channel_json (s : State) : NetworkStatus :=
  { connected := if s.json_bytes_remaining > 0 then 1 else 0,
    error := if s.json_bytes_remaining > 0 then 1 else 136,
    rxBytesWaiting := s.json_bytes_remaining % 65536 }

/-- `sio_status_channel_neon`. -/
def sio_status_channel_neon (s : State) : NetworkStatus :=
  { connected := if s.neon_bytes_remaining > 0 then 1 else 0,
    error := if s.neon_bytes_remaining > 0 then 1 else 136,
    rxBytesWaiting := s.neon_bytes_remaining % 65536 }

/-- `sio_status_channel`: status with a handler `p` bound.  In protocol mode the
handler's `status` fills the record with `Ext.statusOut`. -/
def sio_status_channel (s : State) (x : Ext) (p : Protocol) : State :=
  let r : State × Bool := match s.channelMode with
    | ChannelMode.PROTOCOL => (emit { s with status := x.statusOut } Event.pstatus, x.statusRet)
    | ChannelMode.JSON => ({ s with status := sio_status_channel_json s }, false)
    | ChannelMode.NEON => ({ s with status := sio_status_channel_neon s }, false)
  let s := r.1
  let s := emit { s with protocol := some { p with forceStatus := false } }
    (Event.forceStatus false)
  let serialized_status :=
    [s.status.rxBytesWaiting % 256, (s.status.rxBytesWaiting / 256) % 256,
     s.status.connected, s.status.error]
  bus_to_computer s serialized_status 4 r.2

/-- `sio_status`. -/
def sio_status (s : State) (x : Ext) : State :=
  let s := sio_ack s
  match s.protocol with
  | none => sio_status_local s x
  | some p => sio_status_channel s x p

/-! ## Strings -/

/-- Modelled from the spec: `util_devicespec_fix_9b` (utils, outside `src/`):
"Replace all 0x9B with NUL to yield a C-string". -/
def util_devicespec_fix_9b (buf : List Nat) : List Nat :=
  buf.map (fun b => if b = 0x9B then 0 else b)

/-- `string((const char *)buf)` for a fixed-size array: the bytes before the
first NUL; an array holding no NUL is read past its end. -/
def cstring (buf : List Nat) : Except Fault (List Nat) :=
  if 0 ∈ buf then .ok (buf.takeWhile (fun b => b ≠ 0)) else .error Fault.unterminated

/-- `std::string::find(c, pos)` for a one-character needle; `none` is `npos`. -/
def find (str : List Nat) (c : Nat) (pos : Nat) : Option Nat :=
  let rest := str.drop pos
  if rest.indexOf c < rest.length then some (pos + rest.indexOf c) else none

/-- `++pos` on a `size_t` that may hold `npos` (which wraps to 0). -/
def incr (pos : Option Nat) : Nat :=
  match pos with
  | none => 0
  | some p => p + 1

/-- `str.substr(0, pos)` where `pos` may be `npos`. -/
def substr0 (str : List Nat) (pos : Option Nat) : List Nat :=
  match pos with
  | none => str
  | some p => str.take p

/-- `strrchr(str, c)` followed by `inp++`: what follows the last `c`. -/
def afterLast (str : List Nat) (c : Nat) : Option (List Nat) :=
  match str with
  | [] => none
  | b :: rest =>
    match afterLast rest c with
    | some r => some r
    | none => if b = c then some rest else none

/-! ## Prefix -/

/-- `sio_get_prefix`: a 256-byte frame holding the prefix, then 0x9B, then NULs.
The copy and the terminator are written into `prefixSpec[256]` unchecked. -/
def sio_get_prefix (s : State) : Except Fault State :=
  if s.pfx.length < 256 then
    .ok (bus_to_computer s
      (s.pfx ++ [0x9B] ++ List.replicate (255 - s.pfx.length) 0) 256 false)
  else .error Fault.outOfRange

/-- The positions of `'/'` in the prefix (`pathLocations`). -/
def pathLocations (p : List Nat) : List Nat :=
  (List.range p.length).filter (fun i => p.getD i 0 = 47)

/-- The `".."` / `"<"` branch of `sio_set_prefix`. -/
def prefix_devance (p : List Nat) : Except Fault (List Nat) :=
  match p.getLast? with
  | none => .error Fault.outOfRange
  | some last =>
    let locs := if last = 47 then (pathLocations p).dropLast else pathLocations p
    match locs.getLast? with
    | none => .error Fault.outOfRange
    | some k => .ok (p.take (k + 1))

/-- The `"/"` / `">"` branch of `sio_set_prefix`. -/
def prefix_hostroot (p : List Nat) : List Nat :=
  let pos := find p 47 0
  let p := if pos = none then [] else p
  let pos := find p 47 (incr pos)
  let p := if pos = none then [] else p
  let pos := find p 47 (incr pos)
  let p := if pos = none then p ++ [47] else p
  let pos := find p 47 (incr pos)
  substr0 p pos

/-- The edit `sio_set_prefix` applies to the prefix for the string `str` that
follows the device part of the payload; the result is what is handed to
`util_get_canonical_path`. -/
def prefix_edit (p : List Nat) (str : List Nat) : Except Fault (List Nat) :=
  if str = [] then .ok []
  else if str = [46, 46] ∨ str = [60] then prefix_devance p
  else if str = [47] ∨ str = [62] then .ok (prefix_hostroot p)
  else if str.head? = some 47 then .ok str
  else if 58 ∈ str then .ok str
  else .ok (p ++ str)

/-- `sio_set_prefix`. -/
def sio_set_prefix (s : State) (x : Ext) : Except Fault State :=
  let r := bus_to_peripheral s x 256
  match cstring (util_devicespec_fix_9b r.2) with
  | .error e => .error e
  | .ok str0 =>
    let str := str0.drop (incr (find str0 58 0))
    match prefix_edit r.1.pfx str with
    | .error e => .error e
    | .ok p => .ok (sio_complete { r.1 with pfx := x.canonical p })

/-! ## Local specials -/

/-- `sio_set_channel_mode`. -/
def sio_set_channel_mode (s : State) : State :=
  if s.cmdFrame.aux2 = 0 then sio_complete { s with channelMode := ChannelMode.PROTOCOL }
  else if s.cmdFrame.aux2 = 1 then sio_complete { s with channelMode := ChannelMode.JSON }
  else if s.cmdFrame.aux2 = 2 then sio_complete { s with channelMode := ChannelMode.NEON }
  else sio_error s

/-- `sio_set_login`. -/
def sio_set_login (s : State) (x : Ext) : Except Fault State :=
  let r := bus_to_peripheral s x 256
  match cstring (util_devicespec_fix_9b r.2) with
  | .error e => .error e
  | .ok str => .ok (sio_complete { r.1 with login := str })

/-- `sio_set_password`. -/
def sio_set_password (s : State) (x : Ext) : Except Fault State :=
  let r := bus_to_peripheral s x 256
  match cstring (util_devicespec_fix_9b r.2) with
  | .error e => .error e
  | .ok str => .ok (sio_complete { r.1 with password := str })

/-- `sio_set_translation`. -/
def sio_set_translation (s : State) : State :=
  sio_complete { s with trans_aux2 := s.cmdFrame.aux2 }

/-- `sio_set_timer_rate`. -/
def sio_set_timer_rate (s : State) : State :=
  let s := { s with timerRate := s.cmdFrame.aux2 * 256 + s.cmdFrame.aux1 }
  let s := timer_stop s
  let s := if s.protocol.isSome then timer_start s else s
  sio_complete s

/-- Calling through a helper pointer: the helper object must exist and the
handler it was wired to must still exist. -/
def helper_check (h : Ptr) (s : State) : Except Fault Unit :=
  match h with
  | Ptr.null => .error Fault.nullDeref
  | Ptr.dangling => .error Fault.useAfterFree
  | Ptr.live =>
    match s.helperTarget with
    | Ptr.null => .error Fault.nullDeref
    | Ptr.dangling => .error Fault.useAfterFree
    | Ptr.live => .ok ()

/-- Modelled from the spec: `FNJSON::parse` is outside `src/`; the JSON view
"wraps" the handler, the parsed document stays inside the helper. -/
def sio_parse_json (s : State) : Except Fault State :=
  match helper_check s.json s with
  | .error e => .error e
  | .ok _ => .ok (sio_complete (emit s Event.jsonParse))

/-- `sio_set_json_query`: `Ext.jsonValue` is the value `readValue` yields for
the query. -/
def sio_set_json_query (s : State) (x : Ext) : Except Fault State :=
  let r := bus_to_peripheral s x 256
  let inb := r.2.map (fun b => if b = 0x0A ∨ b = 0x0D ∨ b = 0x9B then 0 else b)
  match cstring inb with
  | .error e => .error e
  | .ok str =>
    match afterLast str 58 with
    | none => .ok (sio_error r.1)
    | some _ =>
      match helper_check r.1.json r.1 with
      | .error e => .error e
      | .ok _ =>
        let s := emit r.1 Event.jsonQuery
        let s := { s with json_bytes_remaining := x.jsonValue.length }
        let s := { s with receiveBuffer := s.receiveBuffer ++ x.jsonValue }
        .ok (sio_complete s)

end SioNetwork

/-! # The ADF compiler placeholder (`lib/neon/neonmake.cpp`) -/

namespace NeonMake

/-- `NeonMake::compile`: bytes above 96 and below 123 get bit 7 set. -/
def compile (adf : List Nat) : List Nat :=
  adf.map (fun c => if 96 < c ∧ c < 123 then c ||| 0x80 else c)

/-- The loop of `NeonMake::parse`: every round the handler's `read` appends a
chunk to the shared receive buffer, the buffer is moved to `_parseBuffer` and
cleared.  The chunks are the rounds up to the status that reports the
connection closed.  Returns `_parseBuffer` and the receive buffer. -/
def parseLoop (chunks : List (List Nat)) (parseBuffer receiveBuffer : List Nat) :
    List Nat × List Nat :=
  match chunks with
  | [] => (parseBuffer, receiveBuffer)
  | ch :: rest => parseLoop rest (parseBuffer ++ (receiveBuffer ++ ch)) []

end NeonMake

namespace SioNetwork

/-- `sio_parse_adf`: `neon->parse()` (drain the handler, compile), then append the
document to the receive buffer.  `readDoc` takes its length as `unsigned short`,
so of a document of 65536 bytes or more only a part is copied into the scratch
block that is appended. -/
def sio_parse_adf (s : State) (x : Ext) : Except Fault State :=
  match helper_check s.neon s with
  | .error e => .error e
  | .ok _ =>
    let s := emit s Event.neonParse
    let r := NeonMake.parseLoop x.adfChunks [] s.receiveBuffer
    let s := { s with receiveBuffer := r.2, neonDoc := NeonMake.compile r.1 }
    let docLen := s.neonDoc.length
    let s := { s with neon_bytes_remaining := docLen }
    if docLen < 65536 then
      let s := { s with receiveBuffer := s.receiveBuffer ++ s.neonDoc }
      .ok (sio_complete s)
    else .error Fault.uninitialised

/-! ## Special dispatch -/

/-- The global default table of `do_inquiry` for a command the handler did not
claim. -/
def inquiry_default (s : State) (inq_cmd : Nat) : Nat :=
  if inq_cmd = 0x20 ∨ inq_cmd = 0x21 ∨ inq_cmd = 0x23 ∨ inq_cmd = 0x24 ∨ inq_cmd = 0x2A
      ∨ inq_cmd = 0x2B ∨ inq_cmd = 0x2C ∨ inq_cmd = 0xFD ∨ inq_cmd = 0xFE then 0x80
  else if inq_cmd = 0xFC then 0x00
  else if inq_cmd = 0x30 then 0x40
  else if inq_cmd = 90 then 0x00
  else if inq_cmd = 84 then 0x00
  else if inq_cmd = 80 then (if s.channelMode = ChannelMode.JSON then 0x00 else 0xFF)
  else if inq_cmd = 81 then (if s.channelMode = ChannelMode.JSON then 0x80 else 0xFF)
  else if inq_cmd = 78 then (if s.channelMode = ChannelMode.NEON then 0x00 else 0xFF)
  else 0xFF

/-- `do_inquiry`: ask the handler (its answer is `Ext.inquiry`), fall back to the
default table when there is none or it answers 0xFF. -/
def do_inquiry (s : State) (x : Ext) (inq_cmd : Nat) : State :=
  let s := { s with inq_dstats := 0xFF }
  let s := match s.protocol with
    | some _ => emit { s with inq_dstats := x.inquiry } (Event.pinquiry inq_cmd)
    | none => s
  if s.inq_dstats = 0xFF then { s with inq_dstats := inquiry_default s inq_cmd } else s

/-- `sio_special_inquiry`. -/
def sio_special_inquiry (s : State) (x : Ext) : State :=
  let s := sio_ack s
  let s := do_inquiry s x s.cmdFrame.aux1
  bus_to_computer s [s.inq_dstats] 1 false

/-- `sio_do_idempotent_command_80`. -/
def sio_do_idempotent_command_80 (s : State) (x : Ext) : State :=
  let s := sio_ack s
  let s := parse_and_instantiate_protocol s x
  match s.protocol with
  | none => sio_error s
  | some _ =>
    let s := emit s Event.pidempotent80
    if x.idempotentRet then sio_error s else sio_complete s

/-- `sio_special_00`. -/
def sio_special_00 (s : State) (x : Ext) : Except Fault State :=
  if s.cmdFrame.comnd = 80 then
    (if s.channelMode = ChannelMode.JSON then sio_parse_json s else .ok s)
  else if s.cmdFrame.comnd = 78 then
    (if s.channelMode = ChannelMode.NEON then sio_parse_adf s x else .ok s)
  else if s.cmdFrame.comnd = 84 then .ok (sio_set_translation s)
  else if s.cmdFrame.comnd = 90 then .ok (sio_set_timer_rate s)
  else if s.cmdFrame.comnd = 0xFC then .ok (sio_set_channel_mode s)
  else
    match s.protocol with
    | none => .error Fault.nullDeref
    | some _ =>
      let s := emit s Event.pspecial00
      if x.special00Ret = false then .ok (sio_complete s) else .ok (sio_error s)

/-- `sio_special_40`.  The handler fills the 256 bytes at `receiveBuffer->data()`
with `Ext.special40Data` and the same 256 bytes go to the host; the string owns
only its content and the terminating NUL. -/
def sio_special_40 (s : State) (x : Ext) : Except Fault State :=
  if s.cmdFrame.comnd = 0x30 then sio_get_prefix s
  else
    match s.protocol with
    | none => .error Fault.nullDeref
    | some _ =>
      if SPECIAL_BUFFER_SIZE ≤ s.receiveBuffer.length + 1 then
        let filled := List.take SPECIAL_BUFFER_SIZE
          (x.special40Data ++ List.replicate SPECIAL_BUFFER_SIZE 0)
        let s := emit s Event.pspecial40
        let rx := List.take s.receiveBuffer.length filled
          ++ List.drop SPECIAL_BUFFER_SIZE s.receiveBuffer
        let s := { s with receiveBuffer := rx }
        .ok (bus_to_computer s filled SPECIAL_BUFFER_SIZE x.special40Ret)
      else .error Fault.outOfRange

/-- `sio_special_80`. -/
def sio_special_80 (s : State) (x : Ext) : Except Fault State :=
  if s.cmdFrame.comnd = 0x20 ∨ s.cmdFrame.comnd = 0x21 ∨ s.cmdFrame.comnd = 0x23
      ∨ s.cmdFrame.comnd = 0x24 ∨ s.cmdFrame.comnd = 0x2A ∨ s.cmdFrame.comnd = 0x2B then
    .ok (sio_do_idempotent_command_80 s x)
  else if s.cmdFrame.comnd = 0x2C then sio_set_prefix s x
  else if s.cmdFrame.comnd = 81 then
    (if s.channelMode = ChannelMode.JSON then sio_set_json_query s x else .ok s)
  else if s.cmdFrame.comnd = 0xFD then sio_set_login s x
  else if s.cmdFrame.comnd = 0xFE then sio_set_password s x
  else
    let r := bus_to_peripheral s x SPECIAL_BUFFER_SIZE
    match r.1.protocol with
    | none => .error Fault.nullDeref
    | some _ =>
      let s := emit r.1 Event.pspecial80
      if x.special80Ret = false then .ok (sio_complete s) else .ok (sio_error s)

/-- `sio_special`. -/
def sio_special (s : State) (x : Ext) : Except Fault State :=
  let s := do_inquiry s x s.cmdFrame.comnd
  if s.inq_dstats = 0x00 then sio_special_00 (sio_ack s) x
  else if s.inq_dstats = 0x40 then sio_special_40 (sio_ack s) x
  else if s.inq_dstats = 0x80 then sio_special_80 (sio_ack s) x
  else .ok (sio_nak s)

/-! ## Command dispatch and the main loop -/

/-- `sio_process`: store the frame and dispatch on the opcode. -/
def sio_process (s : State) (f : Frame) (x : Ext) : Except Fault State :=
  let s := { s with cmdFrame := f }
  if f.comnd = 0x3F then .ok (sio_high_speed (sio_ack s) x)
  else if f.comnd = 79 then .ok (sio_open s x)
  else if f.comnd = 67 then sio_close s x
  else if f.comnd = 82 then sio_read s x
  else if f.comnd = 87 then sio_write s x
  else if f.comnd = 83 then .ok (sio_status s x)
  else if f.comnd = 0xFF then .ok (sio_special_inquiry s x)
  else sio_special s x

/-- `sio_assert_interrupt`: drive PROCEED from the timer phase. -/
def sio_assert_interrupt (s : State) : State :=
  emit s (Event.proceed s.interruptProceed)

/-- `sio_poll_interrupt`.  Around the status call `fromInterrupt` is raised and
lowered again. -/
def sio_poll_interrupt (s : State) (x : Ext) : State :=
  match s.protocol with
  | none => s
  | some p =>
    if p.interruptEnable = false then s
    else if p.forceStatus = true then sio_assert_interrupt s
    else
      let s := emit { s with status := x.statusOut,
                             protocol := some { p with fromInterrupt := false } } Event.pstatus
      let s := if s.status.rxBytesWaiting > 0 ∨ s.status.connected = 0
        then sio_assert_interrupt s else s
      { s with reservedSave := s.status.connected, errorSave := s.status.error }

/-- What the outer loop can do with the device: hand it a command frame, call
its poll routine, or let the rate timer fire. -/
inductive Input where
  | command (f : Frame) (x : Ext)
  | poll (x : Ext)
  | tick

/-- One step of the device. -/
def step (s : State) (i : Input) : Except Fault State :=
  match i with
  | Input.command f x => sio_process s f x
  | Input.poll x => .ok (sio_poll_interrupt s x)
  | Input.tick => .ok (if s.rateTimerHandle then onTimer s else s)

/-- A sequence of steps; a fault ends the run. -/
def run (s : State) (is : List Input) : Except Fault State :=
  match is with
  | [] => .ok s
  | i :: rest =>
    match step s i with
    | .error e => .error e
    | .ok s1 => run s1 rest

/-- Modelled from the spec: the member initialisers are in `network.h`, outside
`src/`; the device starts `Idle` (no handler, no helpers, no timer), in mode
`Protocol`, with the empty prefix and the default timer rate 100; the
constructor leaves the three buffers empty. -/
def init : State :=
  { protocol := none, protocolParser := false, json := Ptr.null, neon := Ptr.null,
    newData := Ptr.null, channelMode := ChannelMode.PROTOCOL, rateTimerHandle := false,
    interruptProceed := false, timerRate := 100, status := NetworkStatus.reset,
    receiveBuffer := [], transmitBuffer := [], specialBuffer := [], pfx := [],
    login := [], password := [], cmdFrame := { device := 0, comnd := 0, aux1 := 0, aux2 := 0 },
    open_aux1 := 0, open_aux2 := 0, trans_aux2 := 0, inq_dstats := 0xFF,
    json_bytes_remaining := 0, neon_bytes_remaining := 0, neonDoc := [],
    helperTarget := Ptr.null, helperCurrent := false, reservedSave := 0, errorSave := 0,
    log := [] }

/-- A quiet collaborator record: allocation succeeds, the URL is valid, the
registry knows no scheme, every handler call succeeds and reports nothing. -/
def Ext.quiet : Ext :=
  { mallocOk := true, payload := [], validUrl := true, created := none, openRet := false,
    protocolError := 0, closeRet := false, readRet := false, readData := [],
    writeRet := false, writeLeft := fun _ => [], statusRet := false,
    statusOut := { rxBytesWaiting := 0, connected := 1, error := 0 }, inquiry := 0xFF,
    special00Ret := false, special40Ret := false, special40Data := [],
    special80Ret := false, idempotentRet := false, jsonValue := [], adfChunks := [],
    ipAddress := [0, 0, 0, 0], ipNetmask := [0, 0, 0, 0], ipGateway := [0, 0, 0, 0],
    ipDNS := [0, 0, 0, 0], hsIndex := 0, canonical := fun p => p }

/-- A freshly constructed handler. -/
def Protocol.fresh : Protocol :=
  { forceStatus := false, interruptEnable := true, fromInterrupt := false }

/-! ## Vocabulary for statements about runs -/

/-- The handler slot and the channel mode are the same in both states. -/
def Kept (s s1 : State) : Prop :=
  s1.protocol = s.protocol ∧ s1.channelMode = s.channelMode

/-- The opcodes routed to `sio_do_idempotent_command_80`. -/
def idempotent80 (c : Nat) : Bool :=
  c = 0x20 || c = 0x21 || c = 0x23 || c = 0x24 || c = 0x2A || c = 0x2B

/-- An Open command. -/
def Input.isOpen (i : Input) : Bool :=
  match i with
  | Input.command f _ => f.comnd = 79
  | _ => false

/-- A set-channel-mode special (0xFC) asking for the Json (1) or Neon (2) view. -/
def Input.setsViewMode (i : Input) : Bool :=
  match i with
  | Input.command f _ => f.comnd = 0xFC && (f.aux2 = 1 || f.aux2 = 2)
  | _ => false

/-- The Open frame of the end-to-end scenarios: device 0x71, `'O'`, aux 12, 0. -/
def openFrame : Frame := { device := 0x71, comnd := 79, aux1 := 12, aux2 := 0 }

/-- A Close frame. -/
def closeFrame : Frame := { device := 0x71, comnd := 67, aux1 := 0, aux2 := 0 }

/-- A Status frame. -/
def statusFrame : Frame := { device := 0x71, comnd := 83, aux1 := 0, aux2 := 0 }

/-- A delete frame (opcode 0x21, one of the six idempotent specials). -/
def deleteFrame : Frame := { device := 0x71, comnd := 0x21, aux1 := 0, aux2 := 0 }

/-- Set channel mode (0xFC) to Json (aux2 = 1). -/
def jsonModeFrame : Frame := { device := 0x71, comnd := 0xFC, aux1 := 0, aux2 := 1 }

/-- The devicespec does not parse to a valid URL (scenario `N:???`). -/
def Ext.badUrl : Ext := { Ext.quiet with validUrl := false }

/-- The URL is valid, the registry creates a handler and its `open` succeeds. -/
def Ext.openOk : Ext := { Ext.quiet with created := some Protocol.fresh }

/-- The URL is valid, the registry creates a handler, its `open` fails with
error 170. -/
def Ext.openFails : Ext :=
  { Ext.quiet with created := some Protocol.fresh, openRet := true, protocolError := 170 }

/-- As `Ext.openOk`, but the allocation of the write scratch fails. -/
def Ext.openNoScratch : Ext := { Ext.openOk with mallocOk := false }

/-- A JSON parse frame (`'P'`). -/
def parseFrame : Frame := { device := 0x71, comnd := 80, aux1 := 0, aux2 := 0 }

/-- A handler is live and claims the inquired command with dstats 0x00. -/
def Ext.claims00 : Ext := { Ext.quiet with inquiry := 0x00 }

/-- Whether `a` occurs in `l` and its first occurrence is before the first
occurrence of `b`. -/
def firstBefore (a b : Event) (l : List Event) : Bool :=
  decide (l.indexOf a < l.length) && decide (l.indexOf a < l.indexOf b)

/-! ## Comma-separated devicespecs -/

/-- Modelled from the spec: `util_tokenize` (utils, outside `src/`): "tokenize on
`,`"; the tokens are the stretches between separators, a final empty stretch
yields no token. -/
def util_tokenize (str : List Nat) (c : Nat) : List (List Nat) :=
  let step (b : Nat) (acc : List Nat × List (List Nat)) : List Nat × List (List Nat) :=
    if b = c then ([], acc.1 :: acc.2) else (b :: acc.1, acc.2)
  let r := str.foldr step ([], [])
  let toks := r.1 :: r.2
  if toks.getLast? = some [] then toks.dropLast else toks

/-- The loop of `processCommaFromDevicespec`: the first token that starts with
`'N'` and is not an `N:` seen by a device other than 0x71. -/
def pickToken (tokens : List (List Nat)) (device : Nat) : Option (List Nat) :=
  match tokens with
  | [] => none
  | item :: rest =>
    if item.getD 0 0 ≠ 78 then pickToken rest device
    else if item.getD 1 0 = 58 ∧ device ≠ 0x71 then pickToken rest device
    else some item

/-- `processCommaFromDevicespec`, as a function of `deviceSpec` and
`cmdFrame.device`; the result is the new `deviceSpec`. -/
def processCommaFromDevicespec (deviceSpec : List Nat) (device : Nat) : List Nat :=
  if find deviceSpec 44 0 = none then deviceSpec
  else
    match pickToken (util_tokenize deviceSpec 44) device with
    | some item => item
    | none => deviceSpec

/-! ## Vocabulary for the statements about reads, inquiry and polls -/

/-- The bytes of an ASCII string. -/
def ascii (str : String) : List Nat := str.toList.map Char.toNat

/-- The Json view's channel read applied to each size in turn. -/
def json_reads (s : State) (sizes : List Nat) : State :=
  sizes.foldl (fun st n => (sio_read_channel_json st n).1) s

/-- The Neon view's channel read applied to each size in turn. -/
def neon_reads (s : State) (sizes : List Nat) : State :=
  sizes.foldl (fun st n => (sio_read_channel_neon st n).1) s

/-- The special inquiry default table as the specification words it: 0x80 for
0x20, 0x21, 0x23, 0x24, 0x2A, 0x2B, 0x2C, 0xFD, 0xFE; 0x00 for 0xFC, `'Z'`, `'T'`;
0x40 for 0x30; `'P'` is 0x00 iff the mode is Json, `'Q'` is 0x80 iff the mode is
Json, `'N'` is 0x00 iff the mode is Neon; 0xFF for everything else. -/
def spec_inquiry_table (mode : ChannelMode) (c : Nat) : Nat :=
  if c ∈ [0x20, 0x21, 0x23, 0x24, 0x2A, 0x2B, 0x2C, 0xFD, 0xFE] then 0x80
  else if c ∈ [0xFC, 90, 84] then 0x00
  else if c = 0x30 then 0x40
  else if c = 80 ∧ mode = ChannelMode.JSON then 0x00
  else if c = 81 ∧ mode = ChannelMode.JSON then 0x80
  else if c = 78 ∧ mode = ChannelMode.NEON then 0x00
  else 0xFF

/-- The condition under which a poll asks the handler for its status: a handler
is live, it enables interrupts and `forceStatus` is not set. -/
def pollAsksStatus (s : State) : Bool :=
  match s.protocol with
  | none => false
  | some p => p.interruptEnable && !p.forceStatus

/-- The condition the specification gives for driving PROCEED: a handler is
live, it enables interrupts, and `forceStatus` is set or the polled status has
bytes waiting or reports the connection closed. -/
def pollDrivesProceed (s : State) (x : Ext) : Bool :=
  match s.protocol with
  | none => false
  | some p =>
    p.interruptEnable &&
      (p.forceStatus || decide (x.statusOut.rxBytesWaiting > 0)
        || decide (x.statusOut.connected = 0))

/-! ## More frames and collaborator records used in the examples -/

/-- A Read frame for 4 bytes. -/
def readFrame4 : Frame := { device := 0x71, comnd := 82, aux1 := 4, aux2 := 0 }

/-- A set JSON query frame (`'Q'`). -/
def queryFrame : Frame := { device := 0x71, comnd := 81, aux1 := 0, aux2 := 0 }

/-- A set-prefix frame (0x2C). -/
def setPrefixFrame : Frame := { device := 0x71, comnd := 0x2C, aux1 := 0, aux2 := 0 }

/-- A get-prefix frame (0x30). -/
def getPrefixFrame : Frame := { device := 0x71, comnd := 0x30, aux1 := 0, aux2 := 0 }

/-- The host sends the query `N:q`, for which the JSON helper yields `abcd`. -/
def Ext.queryAbcd : Ext :=
  { Ext.quiet with payload := ascii "N:q" ++ [0x9B], jsonValue := ascii "abcd" }

/-- The host sends the query `N:q`, for which the JSON helper yields `ab`. -/
def Ext.queryAb : Ext :=
  { Ext.quiet with payload := ascii "N:q" ++ [0x9B], jsonValue := ascii "ab" }

/-- The host sends the payload `str` terminated by 0x9B. -/
def Ext.sends (str : List Nat) : Ext := { Ext.quiet with payload := str ++ [0x9B] }

/-- The state the device is in after the inputs `is`, starting from `init` (the
initial state again if the run faults). -/
def stateAfter (is : List Input) : State :=
  match run init is with
  | .ok s => s
  | .error _ => init

/-- Open, switch to the Json view, set a query that yields `abcd`. -/
def jsonAbcdInputs : List Input :=
  [Input.command openFrame Ext.openOk, Input.command jsonModeFrame Ext.quiet,
   Input.command queryFrame Ext.queryAbcd]

/-- Open, switch to the Json view, set a query that yields `ab`. -/
def jsonAbInputs : List Input :=
  [Input.command openFrame Ext.openOk, Input.command jsonModeFrame Ext.quiet,
   Input.command queryFrame Ext.queryAb]

/-- The initial state with the prefix set to `p`. -/
def prefixState (p : List Nat) : State := { init with pfx := p }

/-- Two set-prefix commands: `N:TNFS://h/` followed by 200 letters `a` replaces
the prefix, `N:` followed by 100 letters `b` is appended to it. -/
def longPrefixInputs : List Input :=
  [Input.command setPrefixFrame (Ext.sends (ascii "N:TNFS://h/" ++ List.replicate 200 97)),
   Input.command setPrefixFrame (Ext.sends (ascii "N:" ++ List.replicate 100 98))]

/-! ## Vocabulary and records for the statements about the Json view and Write -/

/-- A JSON parse (`'P'`) issued right after switching to the Json view in the
initial state. -/
def parseWhileIdleInputs : List Input :=
  [Input.command jsonModeFrame Ext.quiet, Input.command parseFrame Ext.quiet]

/-- A delete special that leaves its handler installed, then the switch to the
Json view. -/
def idempotentThenJsonInputs : List Input :=
  [Input.command deleteFrame Ext.openOk, Input.command jsonModeFrame Ext.quiet]

end SioNetwork

/-! # The remote filesystem adapter (`lib/FileSystem/fnFsGoogleDrive.cpp`)

The adapter's members become the fields of `Drive`; the HTTP client, the JSON
parser, the directory cache's filter and the C library's time parsing are outside
the sources and are supplied through `World`.  Every request handed to the HTTP
client is appended to `Drive.sent`.  Strings are lists of characters. -/

namespace GoogleDrive

/-- Text: a list of characters. -/
abbrev Str := List Char

/-- A parsed JSON value (what `cJSON_Parse` returns). -/
inductive Json where
  | null
  | bool (b : Bool)
  | number (n : Int)
  | str (s : Str)
  | array (items : List Json)
  | object (members : List (Str × Json))

/-- C++ exceptions that leave a member function of the adapter. -/
inductive Exn where
  | invalid_argument
  | out_of_range
  deriving DecidableEq, Repr

/-- A request as the HTTP client sends it. -/
structure Request where
  url : Str
  method : Str
  headers : List (Str × Str)
  body : Str
  deriving DecidableEq, Repr

/-- A response: the status code and what `cJSON_Parse` makes of the body that
`available`/`read` deliver (`none` when the body is not JSON). -/
structure Response where
  code : Int
  json : Option Json

/-- One directory cache entry (`fsdir_entry`). -/
structure Entry where
  filename : Str
  isDir : Bool
  size : Nat
  modified_time : Int
  deriving DecidableEq, Repr

/-- Everything outside the sources: whether `begin(url)` succeeds and what the
server answers, both as functions of the requests sent before; the sizes
`MAX_PATHLEN` and `sizeof(fsdir_entry::filename)`; the C library's
`get_time`/`mktime` on a timestamp (`none` when the text does not parse); and the
directory cache's `apply_filter`. -/
structure World where
  beginOk : List Request → Str → Bool
  respond : List Request → Request → Response
  maxPathLen : Nat
  filenameSize : Nat
  mktime : Str → Option Int
  applyFilter : Str → Nat → List Entry → List Entry

/-- The members of `FileSystemGoogleDrive`, the state of its HTTP client (target
`url`, request `headers`, the response of the last request) and the log of
requests. -/
structure Drive where
  started : Bool
  client_id : Str
  client_secret : Str
  access_code : Str
  access_token : Str
  refresh_token : Str
  last_dir : Str
  dircache : List Entry
  view : List Entry
  url : Str
  headers : List (Str × Str)
  last : Option Response
  sent : List Request

/-- `GDRIVE_API_BASE`. -/
def GDRIVE_API_BASE : Str := "https://www.googleapis.com/drive/v3".toList

/-- `OAUTH_TOKEN_URL`. -/
def OAUTH_TOKEN_URL : Str := "https://oauth2.googleapis.com/token".toList

/-! ## Strings and JSON access -/

/-- A lower-case hexadecimal digit. -/
def hexDigit (n : Nat) : Char :=
  if n < 10 then Char.ofNat (48 + n) else Char.ofNat (87 + n)

/-- `isalnum` on an ASCII character. -/
def isalnum (c : Char) : Bool :=
  (48 ≤ c.toNat && c.toNat ≤ 57) || (65 ≤ c.toNat && c.toNat ≤ 90)
    || (97 ≤ c.toNat && c.toNat ≤ 122)

/-- `url_encode`: letters, digits and `-_.~` are kept, every other byte becomes
`%` and two lower-case hexadecimal digits. -/
def url_encode (value : Str) : Str :=
  match value with
  | [] => []
  | c :: rest =>
    if isalnum c || c = '-' || c = '_' || c = '.' || c = '~' then c :: url_encode rest
    else '%' :: hexDigit (c.toNat % 256 / 16) :: hexDigit (c.toNat % 16) :: url_encode rest

/-- `std::getline(ss, component, '/')` until the stream is exhausted: the
stretches between slashes, a final empty stretch yields nothing. -/
def getlines (str : Str) : List Str :=
  let step (c : Char) (acc : Str × List Str) : Str × List Str :=
    if c = '/' then ([], acc.1 :: acc.2) else (c :: acc.1, acc.2)
  let r := str.foldr step ([], [])
  let toks := r.1 :: r.2
  if toks.getLast? = some [] then toks.dropLast else toks

/-- `split_path`: drop one leading slash, split at slashes, keep the non-empty
components. -/
def split_path (path : Str) : List Str :=
  match path with
  | [] => []
  | c :: rest =>
    let path_str := if c = '/' then rest else c :: rest
    (getlines path_str).filter (fun component => !component.isEmpty)

/-- `join_path`. -/
def join_path (components : List Str) : Str :=
  if components.isEmpty then "/".toList
  else components.foldl (fun result component => result ++ ('/' :: component)) []

/-- Modelled from the spec: `cJSON_GetObjectItem` (cJSON is outside the sources):
the member of an object with the given name; nothing for a missing member or a
value that is not an object. -/
def getObjectItem (j : Option Json) (name : Str) : Option Json :=
  match j with
  | some (Json.object members) => members.lookup name
  | _ => none

/-- Modelled from the spec: `cJSON_IsString` and `valuestring` (cJSON is outside
the sources): the text of a string value. -/
def stringValue (j : Option Json) : Option Str :=
  match j with
  | some (Json.str s) => some s
  | _ => none

/-- Modelled from the spec: `cJSON_IsArray` and the array's items (cJSON is
outside the sources). -/
def arrayItems (j : Option Json) : Option (List Json) :=
  match j with
  | some (Json.array items) => some items
  | _ => none

/-- `isspace` of the C locale. -/
def isspace (c : Char) : Bool :=
  c = ' ' || (9 ≤ c.toNat && c.toNat ≤ 13)

/-- `std::stoull(str)` (base 10): leading white space and one sign are skipped,
the digits that follow are converted; no digit raises `invalid_argument`, a
value beyond 64 bits raises `out_of_range`, a minus sign negates modulo 2^64. -/
def stoull (str : Str) : Except Exn Nat :=
  let s1 := str.dropWhile isspace
  let neg := s1.head? = some '-'
  let s2 := if s1.head? = some '-' ∨ s1.head? = some '+' then s1.tail else s1
  let ds := s2.takeWhile Char.isDigit
  if ds.isEmpty then .error Exn.invalid_argument
  else
    let v := ds.foldl (fun a c => a * 10 + (c.toNat - 48)) 0
    if v ≥ 2 ^ 64 then .error Exn.out_of_range
    else .ok (if neg then (2 ^ 64 - v) % 2 ^ 64 else v)

/-- `strlcpy(dst, src, size)`: at most `size - 1` characters are copied. -/
def strlcpy (src : Str) (size : Nat) : Str := src.take (size - 1)

/-! ## HTTP client -/

/-- `_http->begin(url)`.  Modelled from the spec: the HTTP client is outside the
sources; a successful `begin` targets the client at `url` with no request
headers set. -/
def http_begin (w : World) (d : Drive) (url : Str) : Drive × Bool :=
  if w.beginOk d.sent url then ({ d with url := url, headers := [] }, true) else (d, false)

/-- `_http->set_header(name, value)`: the header replaces one of the same name. -/
def set_header (d : Drive) (name value : Str) : Drive :=
  { d with headers := d.headers.filter (fun h => h.1 ≠ name) ++ [(name, value)] }

/-- `_http->GET()`, `POST(body)`, `DELETE()`: the request goes to the client's
current target with its current headers; the result is the status code. -/
def http_send (w : World) (d : Drive) (method body : Str) : Drive × Int :=
  let req : Request := { url := d.url, method := method, headers := d.headers, body := body }
  let resp := w.respond d.sent req
  ({ d with sent := d.sent ++ [req], last := some resp }, resp.code)

/-- The loop `while (_http->available() > 0) ... read ...` followed by
`cJSON_Parse`: the parsed body of the last response. -/
def read_json (d : Drive) : Option Json :=
  match d.last with
  | some r => r.json
  | none => none

/-- `get_auth_header`. -/
def get_auth_header (d : Drive) : Str := "Bearer ".toList ++ d.access_token

/-- `refresh_access_token`. -/
def refresh_access_token (w : World) (d : Drive) : Drive × Bool :=
  if d.refresh_token.isEmpty then (d, false)
  else
    let post_data := "refresh_token=".toList ++ url_encode d.refresh_token
      ++ "&client_id=".toList ++ url_encode d.client_id
      ++ "&client_secret=".toList ++ url_encode d.client_secret
      ++ "&grant_type=refresh_token".toList
    let b := http_begin w d OAUTH_TOKEN_URL
    if !b.2 then (b.1, false)
    else
      let d := set_header b.1 "Content-Type".toList "application/x-www-form-urlencoded".toList
      let r := http_send w d "POST".toList post_data
      if r.2 ≠ 200 then (r.1, false)
      else
        match stringValue (getObjectItem (read_json r.1) "access_token".toList) with
        | none => (r.1, false)
        | some tok => ({ r.1 with access_token := tok }, true)

/-- The three supported methods of `make_api_request`, as sent the first time
(`POST` with a body also sets the content type). -/
def send_method (w : World) (d : Drive) (method body : Str) : Option (Drive × Int) :=
  if method = "GET".toList then some (http_send w d "GET".toList [])
  else if method = "POST".toList then
    let d := if !body.isEmpty then
      set_header d "Content-Type".toList "application/json".toList else d
    some (http_send w d "POST".toList body)
  else if method = "DELETE".toList then some (http_send w d "DELETE".toList [])
  else none

/-- `make_api_request(endpoint, method, body)`: one attempt, and after a 401 one
refresh of the access token followed by one more send. -/
def make_api_request (w : World) (d : Drive) (endpoint method body : Str) : Drive × Bool :=
  let url := GDRIVE_API_BASE ++ endpoint
  let b := http_begin w d url
  if !b.2 then (b.1, false)
  else
    let d := set_header b.1 "Authorization".toList (get_auth_header b.1)
    match send_method w d method body with
    | none => (d, false)
    | some (d, response_code) =>
      let r : Drive × Int :=
        if response_code = 401 then
          let f := refresh_access_token w d
          if f.2 then
            let d := set_header f.1 "Authorization".toList (get_auth_header f.1)
            if method = "GET".toList then http_send w d "GET".toList []
            else if method = "POST".toList then http_send w d "POST".toList body
            else http_send w d "DELETE".toList []
          else (f.1, response_code)
        else (d, response_code)
      (r.1, decide (200 ≤ r.2 ∧ r.2 < 300))

/-! ## Path resolution and directory listing -/

/-- The loop of `get_folder_id`: resolve the components one by one below
`current_folder_id`; the empty string means "not found". -/
def walk_folders (w : World) (d : Drive) (current_folder_id : Str) (components : List Str) :
    Drive × Str :=
  match components with
  | [] => (d, current_folder_id)
  | component :: rest =>
    let query := "/files?q=".toList ++ url_encode ("name='".toList ++ component
      ++ "' and '".toList ++ current_folder_id
      ++ "' in parents and mimeType='application/vnd.google-apps.folder' and trashed=false".toList)
    let r := make_api_request w d query "GET".toList []
    if !r.2 then (r.1, [])
    else
      match arrayItems (getObjectItem (read_json r.1) "files".toList) with
      | none => (r.1, [])
      | some [] => (r.1, [])
      | some (first_file :: _) =>
        match stringValue (getObjectItem (some first_file) "id".toList) with
        | none => (r.1, [])
        | some id => walk_folders w r.1 id rest

/-- `get_folder_id`. -/
def get_folder_id (w : World) (d : Drive) (path : Str) : Drive × Str :=
  if path.isEmpty ∨ path = "/".toList then (d, "root".toList)
  else walk_folders w d "root".toList (split_path path)

/-- One round of the entry loop of `dir_open`: entries without a string name are
skipped; a `size` that is a string goes through `std::stoull`. -/
def parse_entry (w : World) (file : Json) : Except Exn (Option Entry) :=
  match stringValue (getObjectItem (some file) "name".toList) with
  | none => .ok none
  | some name =>
    let mimeType := stringValue (getObjectItem (some file) "mimeType".toList)
    let isDir := decide (mimeType = some "application/vnd.google-apps.folder".toList)
    let modified : Int :=
      match stringValue (getObjectItem (some file) "modifiedTime".toList) with
      | none => 0
      | some t => (w.mktime t).getD 0
    match stringValue (getObjectItem (some file) "size".toList) with
    | none =>
      .ok (some { filename := strlcpy name w.filenameSize, isDir := isDir, size := 0,
                  modified_time := modified })
    | some sz =>
      match stoull sz with
      | .error e => .error e
      | .ok v =>
        .ok (some { filename := strlcpy name w.filenameSize, isDir := isDir,
                    size := v % 2 ^ 32, modified_time := modified })

/-- The entry loop of `dir_open`: the cache grows by one entry per file with a
string name. -/
def parse_entries (w : World) (files : List Json) (cache : List Entry) :
    Except Exn (List Entry) :=
  match files with
  | [] => .ok cache
  | file :: rest =>
    match parse_entry w file with
    | .error e => .error e
    | .ok none => parse_entries w rest cache
    | .ok (some e) => parse_entries w rest (cache ++ [e])

/-- `dir_open(path, pattern, diropts)` for a non-null path. -/
def dir_open (w : World) (d : Drive) (path pattern : Str) (diropts : Nat) :
    Except Exn (Drive × Bool) :=
  if !d.started then .ok (d, false)
  else if d.last_dir = path ∧ !d.dircache.isEmpty then
    .ok ({ d with view := w.applyFilter pattern diropts d.dircache }, true)
  else
    let d := { d with dircache := [], last_dir := [] }
    let f := get_folder_id w d path
    if f.2.isEmpty then .ok (f.1, false)
    else
      let query := "/files?q=".toList
        ++ url_encode ("'".toList ++ f.2 ++ "' in parents and trashed=false".toList)
        ++ "&fields=files(id,name,mimeType,size,modifiedTime)".toList
      let r := make_api_request w f.1 query "GET".toList []
      if !r.2 then .ok (r.1, false)
      else
        match arrayItems (getObjectItem (read_json r.1) "files".toList) with
        | none => .ok (r.1, false)
        | some files =>
          let d := { r.1 with last_dir := strlcpy path w.maxPathLen }
          match parse_entries w files d.dircache with
          | .error e => .error e
          | .ok cache =>
            let d := { d with dircache := cache }
            .ok ({ d with view := w.applyFilter pattern diropts d.dircache }, true)

/-! ## File lookup and download into the file cache -/

/-- The stretches of a string between slashes: the fold inside `getlines`
before the final empty stretch is dropped. -/
def pieces (str : Str) : List Str :=
  let r := str.foldr (fun c (acc : Str × List Str) =>
    if c = '/' then (([] : Str), acc.1 :: acc.2) else (c :: acc.1, acc.2)) ([], [])
  r.1 :: r.2

/-- `get_file_id`: the last component is the file name, the components before it
are resolved as a folder; the empty string means "not found". -/
def get_file_id (w : World) (d : Drive) (path : Str) : Drive × Str :=
  let components := split_path path
  match components.getLast? with
  | none => (d, [])
  | some filename =>
    let f := get_folder_id w d (join_path components.dropLast)
    if f.2.isEmpty then (f.1, [])
    else
      let query := "/files?q=".toList ++ url_encode ("name='".toList ++ filename
        ++ "' and '".toList ++ f.2 ++ "' in parents and trashed=false".toList)
      let r := make_api_request w f.1 query "GET".toList []
      if !r.2 then (r.1, [])
      else
        match arrayItems (getObjectItem (read_json r.1) "files".toList) with
        | none => (r.1, [])
        | some [] => (r.1, [])
        | some (first_file :: _) =>
          match stringValue (getObjectItem (some first_file) "id".toList) with
          | none => (r.1, [])
          | some id => (r.1, id)

/-- `HTTP_GET_TIMEOUT`, in milliseconds. -/
def HTTP_GET_TIMEOUT : Int := 30000

/-- `COPY_BLK_SIZE`. -/
def COPY_BLK_SIZE : Int := 4096

/-- The debug lines `cache_file` prints. -/
inductive Msg where
  | beginFailed
  | getFailed
  | allocFailed
  | timeout
  | readFailed
  | writeFailed
  | wentWrong
  | cancelled
  | downloaded
  deriving DecidableEq, Repr

/-- What the collaborators answer in one round of the inner copy loop: the result
of `_http->read(buf, to_read)`, the result of `FileCache::write(fc, buf, to_read)`
and the `_http->available()` that follows. -/
structure Block where
  from_read : Int
  written : Int
  available : Int

/-- What the HTTP client answers in one round of the outer loop:
`_http->available()`, `_http->is_transaction_done()`, and the rounds of the inner
loop that follow. -/
structure Poll where
  available : Int
  done : Bool
  blocks : Nat → Block

/-- Everything outside the sources during a download: whether
`FileCache::create`, `malloc` and `FileCache::reopen` succeed, and the polls of
the HTTP client by number. -/
structure Transfer where
  createOk : Bool
  mallocOk : Bool
  reopenOk : Bool
  polls : Nat → Poll

/-- The locals of the download loop (`tmout_counter`, `cancel`), the number of
bytes read from the HTTP client and accepted by the file cache, the calls of
`fnSystem.delay(50)` and the debug lines printed. -/
structure Copy where
  tmout_counter : Int
  cancel : Bool
  got : Nat
  stored : Nat
  sleeps : Nat
  msgs : List Msg
  deriving DecidableEq, Repr

/-- The locals at the start of the download loop. -/
def Copy.start : Copy :=
  { tmout_counter := 1 + HTTP_GET_TIMEOUT / 50, cancel := false, got := 0, stored := 0,
    sleeps := 0, msgs := [] }

/-- The inner loop `while (available > 0)`: blocks of at most `COPY_BLK_SIZE`
bytes are read and written to the cache; a read that does not deliver the block
or a short write cancels.  `none` when the rounds allowed by `fuel` do not
suffice. -/
def copy_blocks (fuel : Nat) (blocks : Nat → Block) (i : Nat) (available : Int) (c : Copy) :
    Option Copy :=
  match fuel with
  | 0 => none
  | fuel + 1 =>
    if available > 0 then
      let to_read := if available > COPY_BLK_SIZE then COPY_BLK_SIZE else available
      let b := blocks i
      let c : Copy := { c with got := c.got + b.from_read.toNat }
      if b.from_read ≠ to_read then
        some { c with cancel := true, msgs := c.msgs ++ [Msg.readFailed] }
      else
        let c : Copy := { c with stored := c.stored + (min b.written to_read).toNat }
        if b.written < to_read then
          some { c with cancel := true, msgs := c.msgs ++ [Msg.writeFailed] }
        else copy_blocks fuel blocks (i + 1) b.available c
    else some c

/-- The outer loop `while (!cancel)` of `cache_file`, from poll number `k` on.
`none` when the rounds allowed by `fuel` do not suffice. -/
def download (fuel : Nat) (polls : Nat → Poll) (k : Nat) (c : Copy) : Option Copy :=
  match fuel with
  | 0 => none
  | fuel + 1 =>
    if c.cancel then some c
    else
      let p := polls k
      if p.done = true ∧ p.available = 0 then some c
      else if p.available = 0 then
        let c : Copy := { c with tmout_counter := c.tmout_counter - 1 }
        if c.tmout_counter = 0 then
          some { c with cancel := true, msgs := c.msgs ++ [Msg.timeout] }
        else download fuel polls (k + 1) { c with sleeps := c.sleeps + 1 }
      else if p.available > 0 then
        match copy_blocks fuel p.blocks 0 p.available c with
        | none => none
        | some c =>
          download fuel polls (k + 1) { c with tmout_counter := 1 + HTTP_GET_TIMEOUT / 50 }
      else
        download fuel polls (k + 1) { c with cancel := true, msgs := c.msgs ++ [Msg.wentWrong] }

/-- A handle on a cached file. -/
structure FileHandler where
  path : Str
  mode : Str
  size : Nat
  deriving DecidableEq, Repr

/-- Modelled from the spec: the file cache (`FileCache` is outside the sources),
"a process-local content cache keyed (scheme, path)".  Only the scheme
`googledrive://` is used, so an entry is a path with the number of bytes
stored. -/
abbrev Cache := List (Str × Nat)

/-- Modelled from the spec: `FileCache::open` (outside the sources): a handle on
the entry under the path, nothing when there is none. -/
def FileCache.open (cache : Cache) (path mode : Str) : Option FileHandler :=
  match cache.lookup path with
  | some size => some { path := path, mode := mode, size := size }
  | none => none

/-- Modelled from the spec: `FileCache::create` (outside the sources): a new,
empty entry under the path. -/
def FileCache.create (cache : Cache) (path : Str) : Cache := (path, 0) :: cache

/-- Modelled from the spec: the effect of the `FileCache::write` calls of a
download (outside the sources): the entry holds the bytes accepted. -/
def FileCache.write (cache : Cache) (path : Str) (stored : Nat) : Cache :=
  cache.map (fun e => if e.1 = path then (path, stored) else e)

/-- Modelled from the spec: `FileCache::remove` (outside the sources): no entry
remains under the path. -/
def FileCache.remove (cache : Cache) (path : Str) : Cache :=
  cache.filter (fun e => e.1 ≠ path)

/-- Modelled from the spec: `FileCache::reopen` (outside the sources): a handle
on the finished entry, or nothing when reopening fails. -/
def FileCache.reopen (t : Transfer) (cache : Cache) (path mode : Str) : Option FileHandler :=
  if t.reopenOk then FileCache.open cache path mode else none

/-- What a call of `cache_file` leaves behind: the adapter, the file cache, the
handle returned (`none` for a null pointer), the sleeps and the debug lines. -/
structure Fetched where
  drive : Drive
  cache : Cache
  handle : Option FileHandler
  sleeps : Nat
  msgs : List Msg

/-- `cache_file(path, mode)`.  `none` when the rounds allowed by `fuel` do not
suffice for the download loop. -/
def cache_file (fuel : Nat) (w : World) (t : Transfer) (d : Drive) (cache : Cache)
    (path mode : Str) : Option Fetched :=
  if !d.started then
    some { drive := d, cache := cache, handle := none, sleeps := 0, msgs := [] }
  else
    match FileCache.open cache path mode with
    | some fh => some { drive := d, cache := cache, handle := some fh, sleeps := 0, msgs := [] }
    | none =>
      if !t.createOk then
        some { drive := d, cache := cache, handle := none, sleeps := 0, msgs := [] }
      else
        let cache := FileCache.create cache path
        let f := get_file_id w d path
        if f.2.isEmpty then
          some { drive := f.1, cache := FileCache.remove cache path, handle := none,
                 sleeps := 0, msgs := [] }
        else
          let download_url := GDRIVE_API_BASE ++ "/files/".toList ++ f.2 ++ "?alt=media".toList
          let b := http_begin w f.1 download_url
          if !b.2 then
            some { drive := b.1, cache := FileCache.remove cache path, handle := none,
                   sleeps := 0, msgs := [Msg.beginFailed] }
          else
            let d := set_header b.1 "Authorization".toList (get_auth_header b.1)
            let g := http_send w d "GET".toList []
            if g.2 > 399 then
              some { drive := g.1, cache := FileCache.remove cache path, handle := none,
                     sleeps := 0, msgs := [Msg.getFailed] }
            else if !t.mallocOk then
              some { drive := g.1, cache := FileCache.remove cache path, handle := none,
                     sleeps := 0, msgs := [Msg.allocFailed] }
            else
              match download fuel t.polls 0 Copy.start with
              | none => none
              | some c =>
                let cache := FileCache.write cache path c.stored
                if c.cancel then
                  some { drive := g.1, cache := FileCache.remove cache path, handle := none,
                         sleeps := c.sleeps, msgs := c.msgs ++ [Msg.cancelled] }
                else
                  some { drive := g.1, cache := cache,
                         handle := FileCache.reopen t cache path mode,
                         sleeps := c.sleeps, msgs := c.msgs ++ [Msg.downloaded] }

/-! ## Concrete worlds and states used in the examples -/

/-- A started adapter holding an access token and a refresh token. -/
def Drive.ready : Drive :=
  { started := true, client_id := "id".toList, client_secret := "secret".toList,
    access_code := "code".toList, access_token := "tok".toList,
    refresh_token := "ref".toList, last_dir := [], dircache := [], view := [],
    url := [], headers := [], last := none, sent := [] }

/-- A server that answers every request with 200 and an empty listing. -/
def World.emptyFolder : World :=
  { beginOk := fun _ _ => true,
    respond := fun _ _ =>
      { code := 200, json := some (Json.object [("files".toList, Json.array [])]) },
    maxPathLen := 256, filenameSize := 256, mktime := fun _ => none,
    applyFilter := fun _ _ es => es }

/-- A server that answers every request with 200 and a listing of one file. -/
def World.oneFile : World :=
  { World.emptyFolder with
    respond := fun _ _ =>
      { code := 200,
        json := some (Json.object [("files".toList, Json.array [Json.object
          [("id".toList, Json.str "f1".toList), ("name".toList, Json.str "a.txt".toList),
           ("size".toList, Json.str "12".toList)]])]) } }

/-- A server whose access token `tok` has expired: requests carrying it are
answered 401, the token endpoint hands out the token `new`, and every other
request is answered 200 with an empty listing. -/
def World.expired : World :=
  { World.emptyFolder with
    respond := fun _ req =>
      if req.url = OAUTH_TOKEN_URL ∧ req.method = "POST".toList then
        { code := 200,
          json := some (Json.object [("access_token".toList, Json.str "new".toList)]) }
      else if req.headers.lookup "Authorization".toList = some "Bearer tok".toList then
        { code := 401, json := none }
      else { code := 200, json := some (Json.object [("files".toList, Json.array [])]) } }

/-- A server that answers every request with 401. -/
def World.denied : World :=
  { World.emptyFolder with respond := fun _ _ => { code := 401, json := none } }

/-- A started adapter that holds no refresh token. -/
def Drive.noRefresh : Drive := { Drive.ready with refresh_token := [] }

/-- A server whose listing holds one file with the size `abc`. -/
def World.badSize : World :=
  { World.emptyFolder with
    respond := fun _ _ =>
      { code := 200,
        json := some (Json.object [("files".toList, Json.array [Json.object
          [("id".toList, Json.str "f1".toList), ("name".toList, Json.str "a.txt".toList),
           ("size".toList, Json.str "abc".toList)]])]) } }

/-- A block that arrives and is written in full, with `next` bytes available
afterwards. -/
def Block.full (n next : Int) : Block := { from_read := n, written := n, available := next }

/-- A poll with nothing available and the transaction not done. -/
def Poll.idle : Poll := { available := 0, done := false, blocks := fun _ => Block.full 0 0 }

/-- A poll with nothing available and the transaction done. -/
def Poll.finished : Poll := { available := 0, done := true, blocks := fun _ => Block.full 0 0 }

/-- A body of 5000 bytes arrives at the first poll as blocks of 4096 and 904
bytes; the transaction is done at the second poll. -/
def Transfer.body5000 : Transfer :=
  { createOk := true, mallocOk := true, reopenOk := true,
    polls := fun k =>
      if k = 0 then
        { available := 5000, done := false,
          blocks := fun i => if i = 0 then Block.full 4096 904 else Block.full 904 0 }
      else Poll.finished }

/-- The HTTP client never has anything available and is never done. -/
def Transfer.stalled : Transfer := { Transfer.body5000 with polls := fun _ => Poll.idle }

/-- The client is idle for 600 polls, delivers 10 bytes at the next poll, and is
idle afterwards. -/
def Transfer.lateBlock : Transfer :=
  { Transfer.body5000 with
    polls := fun k =>
      if k = 600 then
        { available := 10, done := false, blocks := fun _ => Block.full 10 0 }
      else Poll.idle }

/-- A poll with nothing available while the transaction is not done. -/
def Poll.isIdle (p : Poll) : Prop := p.available = 0 ∧ p.done = false

/-- What `cache_file("/a.txt", "r")` leaves behind on a started adapter with an
empty file cache (nothing when `fuel` does not suffice). -/
def fetch (fuel : Nat) (w : World) (t : Transfer) : Fetched :=
  match cache_file fuel w t Drive.ready [] "/a.txt".toList "r".toList with
  | some r => r
  | none => { drive := Drive.ready, cache := [], handle := none, sleeps := 0, msgs := [] }

end GoogleDrive

/-! # Theorems -/

set_option maxRecDepth 8000

namespace SioNetwork

/-! ## Basic facts -/

/-- An Open frame is handled by `sio_open`, which always returns. -/
theorem sio_process_open (s : State) (f : Frame) (x : Ext) (h : f.comnd = 79) :
    sio_process s f x = .ok (sio_open { s with cmdFrame := f } x) := by
  simp [sio_process, h]

/-! ## Frame facts: what each routine leaves alone -/

theorem Kept.refl (s : State) : Kept s s := ⟨rfl, rfl⟩

theorem Kept.trans {a b c : State} (h1 : Kept a b) (h2 : Kept b c) : Kept a c :=
  ⟨h2.1.trans h1.1, h2.2.trans h1.2⟩

theorem kept_emit (s : State) (e : Event) : Kept s (emit s e) := ⟨rfl, rfl⟩

theorem kept_bus_to_computer (s : State) (b : List Nat) (n : Nat) (err : Bool) :
    Kept s (bus_to_computer s b n err) := by
  cases err <;> exact ⟨rfl, rfl⟩

theorem kept_timer_stop (s : State) : Kept s (timer_stop s) := by
  unfold timer_stop; split <;> exact ⟨rfl, rfl⟩

theorem kept_sio_high_speed (s : State) (x : Ext) : Kept s (sio_high_speed (sio_ack s) x) :=
  (kept_emit s Event.ack).trans (kept_bus_to_computer _ _ _ _)

theorem kept_sio_read (s : State) (x : Ext) (s1 : State) (h : sio_read s x = .ok s1) :
    Kept s s1 := by
  unfold sio_read at h
  cases hp : s.protocol <;> cases hm : s.channelMode <;>
    simp [hp, hm, sio_ack, emit, sio_error, sio_read_channel, sio_read_channel_json,
      sio_read_channel_neon, bus_to_computer, sio_complete] at h <;>
    (try split_ifs at h) <;> (try simp at h) <;>
    (try (obtain ⟨-, rfl⟩ := h)) <;>
    simp [Kept, hp, hm]

theorem kept_sio_write (s : State) (x : Ext) (s1 : State) (h : sio_write s x = .ok s1) :
    Kept s s1 := by
  unfold sio_write at h
  cases hp : s.protocol <;> cases hm : s.channelMode <;> cases hn : s.newData <;>
    cases hw : x.writeRet <;>
    simp [hp, hm, hn, hw, sio_ack, emit, sio_error, sio_write_channel, bus_to_peripheral,
      sio_complete] at h <;>
    subst h <;> simp [Kept, hp, hm]

theorem kept_do_inquiry (s : State) (x : Ext) (c : Nat) : Kept s (do_inquiry s x c) := by
  unfold do_inquiry
  cases hp : s.protocol <;> simp [Kept, emit, hp] <;> split_ifs <;> simp [hp]

theorem kept_sio_special_inquiry (s : State) (x : Ext) :
    Kept s (sio_special_inquiry s x) :=
  ((kept_emit s Event.ack).trans (kept_do_inquiry _ _ _)).trans (kept_bus_to_computer _ _ _ _)

theorem sio_poll_interrupt_mode (s : State) (x : Ext) :
    (sio_poll_interrupt s x).channelMode = s.channelMode := by
  unfold sio_poll_interrupt
  split
  · rfl
  · simp only [sio_assert_interrupt]
    split_ifs <;> rfl

theorem kept_sio_parse_json (s s1 : State) (h : sio_parse_json s = .ok s1) : Kept s s1 := by
  unfold sio_parse_json at h
  split at h
  · cases h
  · cases h; exact ⟨rfl, rfl⟩

theorem kept_sio_parse_adf (s : State) (x : Ext) (s1 : State)
    (h : sio_parse_adf s x = .ok s1) : Kept s s1 := by
  unfold sio_parse_adf at h
  split at h
  · cases h
  · simp only at h
    split_ifs at h
    cases h; exact ⟨rfl, rfl⟩

theorem kept_sio_set_timer_rate (s : State) : Kept s (sio_set_timer_rate s) := by
  unfold sio_set_timer_rate
  cases hp : s.protocol <;> cases ht : s.rateTimerHandle <;>
    simp [Kept, timer_stop, timer_start, sio_complete, emit, hp, ht]

theorem kept_sio_get_prefix (s s1 : State) (h : sio_get_prefix s = .ok s1) : Kept s s1 := by
  unfold sio_get_prefix at h
  split_ifs at h
  cases h; exact kept_bus_to_computer _ _ _ _

theorem kept_sio_set_prefix (s : State) (x : Ext) (s1 : State)
    (h : sio_set_prefix s x = .ok s1) : Kept s s1 := by
  unfold sio_set_prefix at h
  simp only at h
  split at h
  · cases h
  · split at h
    · cases h
    · cases h; exact ⟨rfl, rfl⟩

theorem kept_sio_set_login (s : State) (x : Ext) (s1 : State)
    (h : sio_set_login s x = .ok s1) : Kept s s1 := by
  unfold sio_set_login at h
  simp only at h
  split at h
  · cases h
  · cases h; exact ⟨rfl, rfl⟩

theorem kept_sio_set_password (s : State) (x : Ext) (s1 : State)
    (h : sio_set_password s x = .ok s1) : Kept s s1 := by
  unfold sio_set_password at h
  simp only at h
  split at h
  · cases h
  · cases h; exact ⟨rfl, rfl⟩

theorem kept_sio_set_json_query (s : State) (x : Ext) (s1 : State)
    (h : sio_set_json_query s x = .ok s1) : Kept s s1 := by
  unfold sio_set_json_query at h
  simp only at h
  split at h
  · cases h
  · split at h
    · cases h; exact ⟨rfl, rfl⟩
    · split at h
      · cases h
      · cases h; exact ⟨rfl, rfl⟩


theorem sio_set_channel_mode_protocol (s : State) :
    (sio_set_channel_mode s).protocol = s.protocol := by
  unfold sio_set_channel_mode
  split_ifs <;> rfl

theorem sio_set_channel_mode_mode (s : State)
    (h : ¬ (s.cmdFrame.aux2 = 1 ∨ s.cmdFrame.aux2 = 2)) :
    (sio_set_channel_mode s).channelMode = s.channelMode ∨
      (sio_set_channel_mode s).channelMode = ChannelMode.PROTOCOL := by
  unfold sio_set_channel_mode
  push_neg at h
  split_ifs <;> simp_all [sio_complete, sio_error, emit]

theorem sio_special_00_frame (s : State) (x : Ext) (s1 : State)
    (h : sio_special_00 s x = .ok s1) :
    s1.protocol = s.protocol ∧
    (¬ (s.cmdFrame.comnd = 0xFC ∧ (s.cmdFrame.aux2 = 1 ∨ s.cmdFrame.aux2 = 2)) →
      s1.channelMode = s.channelMode ∨ s1.channelMode = ChannelMode.PROTOCOL) := by
  unfold sio_special_00 at h
  by_cases h1 : s.cmdFrame.comnd = 80
  · rw [if_pos h1] at h
    by_cases hm : s.channelMode = ChannelMode.JSON
    · rw [if_pos hm] at h
      have := kept_sio_parse_json s s1 h; exact ⟨this.1, fun _ => Or.inl this.2⟩
    · rw [if_neg hm] at h; cases h; exact ⟨rfl, fun _ => Or.inl rfl⟩
  rw [if_neg h1] at h
  by_cases h2 : s.cmdFrame.comnd = 78
  · rw [if_pos h2] at h
    by_cases hm : s.channelMode = ChannelMode.NEON
    · rw [if_pos hm] at h
      have := kept_sio_parse_adf s x s1 h; exact ⟨this.1, fun _ => Or.inl this.2⟩
    · rw [if_neg hm] at h; cases h; exact ⟨rfl, fun _ => Or.inl rfl⟩
  rw [if_neg h2] at h
  by_cases h3 : s.cmdFrame.comnd = 84
  · rw [if_pos h3] at h; cases h; exact ⟨rfl, fun _ => Or.inl rfl⟩
  rw [if_neg h3] at h
  by_cases h4 : s.cmdFrame.comnd = 90
  · rw [if_pos h4] at h; cases h
    have := kept_sio_set_timer_rate s; exact ⟨this.1, fun _ => Or.inl this.2⟩
  rw [if_neg h4] at h
  by_cases h5 : s.cmdFrame.comnd = 0xFC
  · rw [if_pos h5] at h; cases h
    exact ⟨sio_set_channel_mode_protocol s,
      fun hn => sio_set_channel_mode_mode s (fun ha => hn ⟨h5, ha⟩)⟩
  rw [if_neg h5] at h
  cases hp : s.protocol with
  | none => rw [hp] at h; cases h
  | some p =>
    rw [hp] at h
    cases hr : x.special00Ret <;> simp [hr] at h <;> subst h <;>
      exact ⟨hp.symm ▸ rfl, fun _ => Or.inl rfl⟩

theorem kept_sio_special_40 (s : State) (x : Ext) (s1 : State)
    (h : sio_special_40 s x = .ok s1) : Kept s s1 := by
  unfold sio_special_40 at h
  by_cases h1 : s.cmdFrame.comnd = 0x30
  · rw [if_pos h1] at h; exact kept_sio_get_prefix s s1 h
  rw [if_neg h1] at h
  cases hp : s.protocol with
  | none => rw [hp] at h; cases h
  | some p =>
    rw [hp] at h
    by_cases hl : SPECIAL_BUFFER_SIZE ≤ s.receiveBuffer.length + 1
    · simp only [if_pos hl] at h
      cases h
      exact Kept.trans (b := { emit s Event.pspecial40 with receiveBuffer := _ }) ⟨rfl, rfl⟩
        (kept_bus_to_computer _ _ _ _)
    · simp only [if_neg hl] at h
      cases h

theorem sio_do_idempotent_command_80_mode (s : State) (x : Ext) :
    (sio_do_idempotent_command_80 s x).channelMode = s.channelMode := by
  cases hv : x.validUrl <;> cases hc : x.created <;> cases hr : x.idempotentRet <;>
    cases hp : s.protocol <;>
    simp [sio_do_idempotent_command_80, parse_and_instantiate_protocol, create_devicespec,
      instantiate_protocol, bus_to_peripheral, sio_ack, sio_error, sio_complete, emit,
      hv, hc, hr, hp]

theorem sio_special_80_frame (s : State) (x : Ext) (s1 : State)
    (h : sio_special_80 s x = .ok s1) :
    s1.channelMode = s.channelMode ∧
    (idempotent80 s.cmdFrame.comnd = false → s1.protocol = s.protocol) := by
  unfold sio_special_80 at h
  split_ifs at h with h1 h2 h3 h4 h5 h6
  · cases h
    refine ⟨sio_do_idempotent_command_80_mode s x, fun hn => ?_⟩
    simp [idempotent80] at hn
    rcases h1 with h | h | h | h | h | h <;> simp [h] at hn
  · have := kept_sio_set_prefix s x s1 h; exact ⟨this.2, fun _ => this.1⟩
  · have := kept_sio_set_json_query s x s1 h; exact ⟨this.2, fun _ => this.1⟩
  · cases h; exact ⟨rfl, fun _ => rfl⟩
  · have := kept_sio_set_login s x s1 h; exact ⟨this.2, fun _ => this.1⟩
  · have := kept_sio_set_password s x s1 h; exact ⟨this.2, fun _ => this.1⟩
  all_goals
    simp only [bus_to_peripheral, emit] at h
    split at h
    · cases h
    · cases h; exact ⟨rfl, fun _ => rfl⟩

theorem do_inquiry_cmdFrame (s : State) (x : Ext) (c : Nat) :
    (do_inquiry s x c).cmdFrame = s.cmdFrame := by
  unfold do_inquiry
  cases hp : s.protocol <;> simp [emit, hp] <;> split_ifs <;> simp

theorem sio_special_frame (s : State) (x : Ext) (s1 : State)
    (h : sio_special s x = .ok s1) :
    (idempotent80 s.cmdFrame.comnd = false → s1.protocol = s.protocol) ∧
    (¬ (s.cmdFrame.comnd = 0xFC ∧ (s.cmdFrame.aux2 = 1 ∨ s.cmdFrame.aux2 = 2)) →
      s1.channelMode = s.channelMode ∨ s1.channelMode = ChannelMode.PROTOCOL) := by
  unfold sio_special at h
  simp only at h
  have hk : Kept s (sio_ack (do_inquiry s x s.cmdFrame.comnd)) :=
    (kept_do_inquiry s x _).trans (kept_emit _ _)
  have hf : (sio_ack (do_inquiry s x s.cmdFrame.comnd)).cmdFrame = s.cmdFrame :=
    do_inquiry_cmdFrame s x _
  split_ifs at h
  · have := sio_special_00_frame _ x s1 h
    rw [hf, hk.1, hk.2] at this
    exact ⟨fun _ => this.1, this.2⟩
  · have := kept_sio_special_40 _ x s1 h
    have := hk.trans this
    exact ⟨fun _ => this.1, fun _ => Or.inl this.2⟩
  · have := sio_special_80_frame _ x s1 h
    rw [hf, hk.1, hk.2] at this
    exact ⟨this.2, fun _ => Or.inl this.1⟩
  · cases h
    have := (kept_do_inquiry s x s.cmdFrame.comnd).trans (kept_emit _ Event.nak)
    exact ⟨fun _ => this.1, fun _ => Or.inl this.2⟩

@[simp] theorem emit_channelMode (s : State) (e : Event) :
    (emit s e).channelMode = s.channelMode := rfl

@[simp] theorem sio_error_channelMode (s : State) :
    (sio_error s).channelMode = s.channelMode := rfl

@[simp] theorem sio_complete_channelMode (s : State) :
    (sio_complete s).channelMode = s.channelMode := rfl

@[simp] theorem sio_ack_channelMode (s : State) :
    (sio_ack s).channelMode = s.channelMode := rfl

@[simp] theorem timer_start_channelMode (s : State) :
    (timer_start s).channelMode = s.channelMode := rfl

@[simp] theorem timer_stop_channelMode (s : State) :
    (timer_stop s).channelMode = s.channelMode := (kept_timer_stop s).2

@[simp] theorem delete_protocol_channelMode (s : State) :
    (delete_protocol s).channelMode = s.channelMode := by
  unfold delete_protocol; simp only; split <;> rfl

@[simp] theorem bus_to_computer_channelMode (s : State) (b : List Nat) (n : Nat)
    (err : Bool) : (bus_to_computer s b n err).channelMode = s.channelMode :=
  (kept_bus_to_computer s b n err).2

@[simp] theorem parse_and_instantiate_protocol_channelMode (s : State) (x : Ext) :
    (parse_and_instantiate_protocol s x).channelMode = s.channelMode := by
  cases hv : x.validUrl <;> cases hc : x.created <;>
    simp [parse_and_instantiate_protocol, create_devicespec, instantiate_protocol,
      bus_to_peripheral, hv, hc]

theorem sio_open_prelude_mode (s : State) (x : Ext) :
    (sio_open_prelude s x).channelMode = ChannelMode.PROTOCOL := by
  cases hm : x.mallocOk <;> cases ht : s.rateTimerHandle <;> cases hp : s.protocol <;>
    cases hh : s.helperCurrent <;>
    simp [sio_open_prelude, hm, ht, hp, hh, timer_stop, sio_ack, sio_error, emit,
      delete_protocol]

theorem sio_open_finish_mode (s : State) (x : Ext)
    (h : s.channelMode = ChannelMode.PROTOCOL) :
    (sio_open_finish s x).channelMode = ChannelMode.PROTOCOL := by
  unfold sio_open_finish
  split
  · simp only [sio_error_channelMode]
    split_ifs <;> exact h
  · split_ifs
    · simp only [sio_error_channelMode]
      split_ifs <;> simp [h]
    · rfl

theorem sio_open_mode (s : State) (x : Ext) :
    (sio_open s x).channelMode = ChannelMode.PROTOCOL :=
  sio_open_finish_mode _ x
    ((parse_and_instantiate_protocol_channelMode _ x).trans (sio_open_prelude_mode s x))

theorem sio_close_mode (s : State) (x : Ext) (s1 : State) (h : sio_close s x = .ok s1) :
    s1.channelMode = s.channelMode := by
  unfold sio_close at h
  simp only at h
  split at h
  · cases h; rfl
  · split at h
    · cases h
      simp only [delete_protocol_channelMode]
      split_ifs <;> rfl
    all_goals cases h

theorem sio_status_mode (s : State) (x : Ext) :
    (sio_status s x).channelMode = s.channelMode := by
  unfold sio_status
  cases hp : s.protocol with
  | none => simp [hp, sio_status_local, sio_ack, emit]; split_ifs <;> simp
  | some p =>
    cases hm : s.channelMode <;> simp [hp, hm, sio_status_channel, sio_ack, emit]


/-! ## Steps and runs -/

theorem sio_process_mode (s : State) (f : Frame) (x : Ext) (s1 : State)
    (h : sio_process s f x = .ok s1) :
    (f.comnd = 79 → s1.channelMode = ChannelMode.PROTOCOL) ∧
    ((Input.command f x).setsViewMode = false →
      s1.channelMode = s.channelMode ∨ s1.channelMode = ChannelMode.PROTOCOL) := by
  unfold sio_process at h
  simp only at h
  split_ifs at h with h1 h2 h3 h4 h5 h6 h7
  · cases h
    exact ⟨fun hc => absurd (h1 ▸ hc) (by decide), fun _ => Or.inl (kept_sio_high_speed _ x).2⟩
  · cases h
    exact ⟨fun _ => sio_open_mode _ x, fun _ => Or.inr (sio_open_mode _ x)⟩
  · have hc := sio_close_mode _ x s1 h
    exact ⟨fun hc => absurd hc h2, fun _ => Or.inl hc⟩
  · exact ⟨fun hc => absurd hc h2, fun _ => Or.inl (kept_sio_read _ x s1 h).2⟩
  · exact ⟨fun hc => absurd hc h2, fun _ => Or.inl (kept_sio_write _ x s1 h).2⟩
  · cases h
    exact ⟨fun hc => absurd hc h2, fun _ => Or.inl (sio_status_mode _ x)⟩
  · cases h
    exact ⟨fun hc => absurd hc h2, fun _ => Or.inl (kept_sio_special_inquiry _ x).2⟩
  · refine ⟨fun hc => absurd hc h2, fun hv => (sio_special_frame _ x s1 h).2 ?_⟩
    simpa [Input.setsViewMode] using hv

theorem step_mode (s : State) (i : Input) (s1 : State) (h : step s i = .ok s1) :
    (i.isOpen = true → s1.channelMode = ChannelMode.PROTOCOL) ∧
    (i.setsViewMode = false →
      s1.channelMode = s.channelMode ∨ s1.channelMode = ChannelMode.PROTOCOL) := by
  cases i with
  | command f x =>
    have := sio_process_mode s f x s1 h
    exact ⟨fun ho => this.1 (by simpa [Input.isOpen] using ho), this.2⟩
  | poll x =>
    cases h
    exact ⟨fun ho => by simp [Input.isOpen] at ho,
      fun _ => Or.inl (sio_poll_interrupt_mode s x)⟩
  | tick =>
    simp only [step] at h
    cases h
    refine ⟨fun ho => by simp [Input.isOpen] at ho, fun _ => Or.inl ?_⟩
    split_ifs <;> rfl

theorem run_snoc (is : List Input) (i : Input) (s s2 : State)
    (h : run s (is ++ [i]) = .ok s2) : ∃ s1, run s is = .ok s1 ∧ step s1 i = .ok s2 := by
  induction is generalizing s with
  | nil =>
    simp only [List.nil_append, run] at h
    split at h
    · cases h
    · rename_i s1 hs
      cases h
      exact ⟨s, rfl, hs⟩
  | cons j rest ih =>
    simp only [List.cons_append, run] at h
    split at h
    · cases h
    · rename_i s1 hs
      obtain ⟨s3, h3, h4⟩ := ih s1 h
      refine ⟨s3, ?_, h4⟩
      simp only [run, hs]
      exact h3

theorem run_mode (is : List Input) (s0 s : State)
    (h0 : s0.channelMode = ChannelMode.PROTOCOL)
    (h : run s0 is = .ok s) (hm : s.channelMode ≠ ChannelMode.PROTOCOL) :
    ∃ pre i post, is = pre ++ i :: post ∧ i.setsViewMode = true ∧
      ∀ j ∈ post, j.isOpen = false := by
  induction is using List.reverseRecOn generalizing s with
  | nil => cases h; exact absurd h0 hm
  | append_singleton is i ih =>
    obtain ⟨s1, h1, h2⟩ := run_snoc is i s0 s h
    have hstep := step_mode s1 i s h2
    cases hv : i.setsViewMode with
    | true => exact ⟨is, i, [], rfl, hv, fun j hj => by simp at hj⟩
    | false =>
      have ho : i.isOpen = false := by
        cases ho : i.isOpen with
        | false => rfl
        | true => exact absurd (hstep.1 ho) hm
      rcases hstep.2 hv with hsame | hp
      · obtain ⟨pre, k, post, he, hk, hpost⟩ := ih s1 h1 (hsame ▸ hm)
        refine ⟨pre, k, post ++ [i], by simp [he], hk, fun j hj => ?_⟩
        rcases List.mem_append.1 hj with hj | hj
        · exact hpost j hj
        · simp at hj; rw [hj]; exact ho
      · exact absurd hp hm

/-- C5: for every prior state and every Open whose devicespec yields an invalid
URL, the command returns, `status.error` is 165, no handler exists, the timer is
not running, and every bus signal after the ACK is ERROR (the host is answered
with ERROR; the signals are listed exactly). -/
theorem open_invalid_url (s : State) (f : Frame) (x : Ext)
    (hO : f.comnd = 79) (hv : x.validUrl = false) :
    ∃ s1, sio_process s f x = .ok s1 ∧
      s1.status.error = 165 ∧ s1.protocol = none ∧ s1.rateTimerHandle = false ∧
      signals s1.log = signals s.log ++
        (Event.ack :: ((if x.mallocOk then [] else [Event.error])
          ++ [Event.error, Event.error])) := by
  refine ⟨_, sio_process_open s f x hO, ?_⟩
  cases hm : x.mallocOk <;> cases ht : s.rateTimerHandle <;> cases hp : s.protocol <;>
    cases hh : s.helperCurrent <;>
    simp [sio_open, sio_open_prelude, sio_open_finish, hv, hm, ht, hp, hh, parse_and_instantiate_protocol, create_devicespec,
      bus_to_peripheral, timer_stop, sio_ack, sio_error, emit, delete_protocol, signals,
      isSignal, NETWORK_ERROR_INVALID_DEVICESPEC, List.filter_append]

/-- Witness for C5: the Open of scenario 4 in the initial state. -/
theorem open_invalid_url_witness :
    ∃ s1, sio_process init openFrame Ext.badUrl = .ok s1 ∧
      s1.status.error = 165 ∧ s1.protocol = none ∧ s1.rateTimerHandle = false ∧
      signals s1.log = [Event.ack, Event.error, Event.error] :=
  open_invalid_url init openFrame Ext.badUrl rfl rfl

/-- C6 fails as stated: an Open with a valid URL whose scheme the registry does
not know ends with `status.error` 1 (general error), not 165. -/
theorem open_unknown_scheme_not_165 :
    ∃ s1, sio_process init openFrame Ext.quiet = .ok s1 ∧
      s1.status.error = 1 ∧ s1.status.error ≠ 165 :=
  ⟨_, rfl, rfl, by decide⟩

/-- C6 amended: for every Open whose URL is valid but whose scheme is unknown to
the registry, the command returns with `status.error` equal to the general error
code, the device is Idle (no handler, timer not running) and the host is answered
with ERROR. -/
theorem open_unknown_scheme (s : State) (f : Frame) (x : Ext)
    (hO : f.comnd = 79) (hv : x.validUrl = true) (hc : x.created = none) :
    ∃ s1, sio_process s f x = .ok s1 ∧
      s1.status.error = NETWORK_ERROR_GENERAL ∧ s1.protocol = none ∧
      s1.rateTimerHandle = false ∧
      signals s1.log = signals s.log ++
        (Event.ack :: ((if x.mallocOk then [] else [Event.error])
          ++ [Event.error, Event.error])) := by
  refine ⟨_, sio_process_open s f x hO, ?_⟩
  cases hm : x.mallocOk <;> cases ht : s.rateTimerHandle <;> cases hp : s.protocol <;>
    cases hh : s.helperCurrent <;>
    simp [sio_open, sio_open_prelude, sio_open_finish, hv, hc, hm, ht, hp, hh, parse_and_instantiate_protocol,
      create_devicespec, instantiate_protocol, bus_to_peripheral, timer_stop, sio_ack,
      sio_error, emit, delete_protocol, signals, isSignal, List.filter_append]

/-- Witness for the amended C6: an unknown scheme in the initial state. -/
theorem open_unknown_scheme_witness :
    ∃ s1, sio_process init openFrame Ext.quiet = .ok s1 ∧
      s1.status.error = NETWORK_ERROR_GENERAL ∧ s1.protocol = none ∧
      s1.rateTimerHandle = false ∧
      signals s1.log = [Event.ack, Event.error, Event.error] :=
  open_unknown_scheme init openFrame Ext.quiet rfl rfl rfl

/-- C8: for every Open in which the handler's `open` returns true, the command
returns, `status.error` is the handler's error code, the handler is deleted and
no handler exists afterwards, the timer is not started (not running, no start in
the log of the command), and every bus signal after the ACK is ERROR. -/
theorem open_handler_fails (s : State) (f : Frame) (x : Ext) (p : Protocol)
    (hO : f.comnd = 79) (hv : x.validUrl = true) (hc : x.created = some p)
    (ho : x.openRet = true) :
    ∃ s1, sio_process s f x = .ok s1 ∧
      s1.status.error = x.protocolError ∧
      s1.protocol = none ∧
      s1.rateTimerHandle = false ∧
      s1.log = s.log ++ ([Event.ack] ++ (if x.mallocOk then [] else [Event.error])
        ++ (if s.rateTimerHandle then [Event.timerStop] else [])
        ++ (if s.protocol.isSome then [Event.pclose, Event.pdelete] else [])
        ++ [Event.toPeripheral 256, Event.created, Event.popen, Event.pdelete,
            Event.error]) ∧
      signals s1.log = signals s.log ++
        (Event.ack :: ((if x.mallocOk then [] else [Event.error]) ++ [Event.error])) := by
  refine ⟨_, sio_process_open s f x hO, ?_⟩
  cases hm : x.mallocOk <;> cases ht : s.rateTimerHandle <;> cases hp : s.protocol <;>
    cases hh : s.helperCurrent <;>
    simp [sio_open, sio_open_prelude, sio_open_finish, hv, hc, ho, hm, ht, hp, hh, parse_and_instantiate_protocol,
      create_devicespec, instantiate_protocol, bus_to_peripheral, timer_stop, timer_start,
      sio_ack, sio_error, sio_complete, emit, delete_protocol, signals, isSignal,
      List.filter_append, SPECIAL_BUFFER_SIZE]

/-- Witness for C8: a failing `open` in the initial state, error code 170. -/
theorem open_handler_fails_witness :
    ∃ s1, sio_process init openFrame Ext.openFails = .ok s1 ∧
      s1.status.error = 170 ∧
      s1.protocol = none ∧
      s1.rateTimerHandle = false ∧
      s1.log = [Event.ack, Event.toPeripheral 256, Event.created, Event.popen,
        Event.pdelete, Event.error] ∧
      signals s1.log = [Event.ack, Event.error] :=
  open_handler_fails init openFrame Ext.openFails Protocol.fresh rfl rfl rfl rfl

/-- C10 fails as stated: in the successful Open of the initial state the timer
is started before `forceStatus` is set, not after. -/
theorem open_starts_timer_before_force_status :
    ∃ s1, sio_process init openFrame Ext.openOk = .ok s1 ∧
      s1.log = [Event.ack, Event.toPeripheral 256, Event.created, Event.popen,
        Event.timerStart, Event.forceStatus true, Event.jsonNew, Event.neonNew,
        Event.complete] ∧
      firstBefore Event.timerStart (Event.forceStatus true) s1.log = true ∧
      firstBefore (Event.forceStatus true) Event.timerStart s1.log = false :=
  ⟨_, rfl, rfl, by decide, by decide⟩

/-- C10 amended: in every successful Open the timer is started first and
`forceStatus` is set to true directly after it, with no bus signal, handler call
or poll in between and before COMPLETE; once the Open has returned the timer
runs and `forceStatus` is true, so the next poll does not ask the handler for
its status and, when the handler enables interrupts, drives PROCEED. -/
theorem open_force_status_right_after_timer_start (s : State) (f : Frame) (x xp : Ext)
    (p : Protocol)
    (hO : f.comnd = 79) (hv : x.validUrl = true) (hc : x.created = some p)
    (ho : x.openRet = false) :
    ∃ s1 pre, sio_process s f x = .ok s1 ∧
      s1.log = s.log ++ pre ++ [Event.timerStart, Event.forceStatus true, Event.jsonNew,
        Event.neonNew, Event.complete] ∧
      Event.timerStart ∉ pre ∧ Event.forceStatus true ∉ pre ∧
      s1.rateTimerHandle = true ∧
      s1.protocol = some { p with forceStatus := true } ∧
      sio_poll_interrupt s1 xp =
        (if p.interruptEnable then emit s1 (Event.proceed s1.interruptProceed) else s1) := by
  refine ⟨_, [Event.ack] ++ (if x.mallocOk then [] else [Event.error])
        ++ (if s.rateTimerHandle then [Event.timerStop] else [])
        ++ (if s.protocol.isSome then [Event.pclose, Event.pdelete] else [])
        ++ [Event.toPeripheral 256, Event.created, Event.popen],
    sio_process_open s f x hO, ?_⟩
  cases hm : x.mallocOk <;> cases ht : s.rateTimerHandle <;> cases hp : s.protocol <;>
    cases hh : s.helperCurrent <;> cases hi : p.interruptEnable <;>
    simp [sio_open, sio_open_prelude, sio_open_finish, hv, hc, ho, hm, ht, hp, hh, hi, parse_and_instantiate_protocol,
      create_devicespec, instantiate_protocol, bus_to_peripheral, timer_stop, timer_start,
      sio_ack, sio_error, sio_complete, emit, delete_protocol, sio_poll_interrupt,
      sio_assert_interrupt, SPECIAL_BUFFER_SIZE]

/-- Witness for the amended C10: the Open of scenario 1 in the initial state. -/
theorem open_force_status_right_after_timer_start_witness :
    ∃ s1 pre, sio_process init openFrame Ext.openOk = .ok s1 ∧
      s1.log = init.log ++ pre ++ [Event.timerStart, Event.forceStatus true, Event.jsonNew,
        Event.neonNew, Event.complete] ∧
      Event.timerStart ∉ pre ∧ Event.forceStatus true ∉ pre ∧
      s1.rateTimerHandle = true ∧
      s1.protocol = some { Protocol.fresh with forceStatus := true } ∧
      sio_poll_interrupt s1 Ext.quiet = emit s1 (Event.proceed s1.interruptProceed) :=
  open_force_status_right_after_timer_start init openFrame Ext.openOk Ext.quiet
    Protocol.fresh rfl rfl rfl rfl

/-! ## Responses per command -/

/-- C1: the code does not answer every command with exactly one COMPLETE or
ERROR.  In the initial state an Open with an invalid URL is answered ACK, ERROR,
ERROR; an idempotent special (0x21) with an invalid URL is answered ACK, ACK,
ERROR, ERROR; a successful Open whose scratch allocation failed is answered ACK,
ERROR, COMPLETE; and a `'P'` that a live handler claims with dstats 0x00 while
the mode is Protocol is answered with ACK alone. -/
theorem responses_not_exactly_one :
    (∃ s1, sio_process init openFrame Ext.badUrl = .ok s1 ∧
      signals s1.log = [Event.ack, Event.error, Event.error]) ∧
    (∃ s1, sio_process init deleteFrame Ext.badUrl = .ok s1 ∧
      signals s1.log = [Event.ack, Event.ack, Event.error, Event.error]) ∧
    (∃ s1, sio_process init openFrame Ext.openNoScratch = .ok s1 ∧
      signals s1.log = [Event.ack, Event.error, Event.complete]) ∧
    (∃ s1, sio_process (sio_open init Ext.openOk) parseFrame Ext.claims00 = .ok s1 ∧
      s1.channelMode = ChannelMode.PROTOCOL ∧
      signals s1.log = signals (sio_open init Ext.openOk).log ++ [Event.ack]) :=
  ⟨⟨_, rfl, rfl⟩, ⟨_, rfl, rfl⟩, ⟨_, rfl, rfl⟩, ⟨_, rfl, rfl, rfl⟩⟩

/-! ## Close -/

theorem delete_protocol_rateTimerHandle (s : State) :
    (delete_protocol s).rateTimerHandle = s.rateTimerHandle := by
  unfold delete_protocol; simp only; split <;> rfl

theorem delete_protocol_protocol (s : State) : (delete_protocol s).protocol = none := by
  unfold delete_protocol; simp only; split <;> rfl

/-- Whenever `sio_close` returns, no handler exists and the timer handle is what
it was before: nothing in `sio_close` stops the timer. -/
theorem sio_close_timer (s : State) (x : Ext) (s1 : State) (h : sio_close s x = .ok s1) :
    s1.protocol = none ∧ s1.rateTimerHandle = s.rateTimerHandle := by
  unfold sio_close at h
  simp only at h
  split at h
  · rename_i hp
    cases h
    exact ⟨hp, rfl⟩
  · split at h
    · cases h
      simp only [delete_protocol_rateTimerHandle, delete_protocol_protocol, true_and]
      split_ifs <;> rfl
    all_goals cases h

/-- C2: after a successful Open followed by a Close that answers COMPLETE, no
handler exists but the rate timer is still running and was never stopped. -/
theorem close_leaves_timer_running :
    ∃ s2, run init [Input.command openFrame Ext.openOk, Input.command closeFrame Ext.quiet]
        = .ok s2 ∧
      signals s2.log = [Event.ack, Event.complete, Event.ack, Event.complete] ∧
      s2.protocol = none ∧ s2.rateTimerHandle = true ∧
      Event.timerStop ∉ s2.log :=
  ⟨_, rfl, rfl, rfl, rfl, by decide⟩

/-! ## Idempotent specials -/

/-- C3 fails as stated: a delete special (0x21) issued in the initial (Idle)
state with a valid URL of a known scheme leaves the created handler installed. -/
theorem idempotent_leaves_handler :
    ∃ s1, sio_process init deleteFrame Ext.openOk = .ok s1 ∧
      s1.protocol = some Protocol.fresh ∧ s1.protocol ≠ none ∧
      signals s1.log = [Event.ack, Event.ack, Event.complete] :=
  ⟨_, rfl, rfl, by decide, rfl⟩

/-- C3 amended: for every idempotent special (0x20, 0x21, 0x23, 0x24, 0x2A, 0x2B)
issued while no handler exists, the command returns; the handler's `open` is not
called, the timer, the channel mode and the view helpers are left as they were;
when the URL is invalid or the scheme unknown no handler exists afterwards, and
otherwise the handler created for the command stays installed after the command
has responded. -/
theorem idempotent_from_idle (s : State) (f : Frame) (x : Ext)
    (hidle : s.protocol = none)
    (hc : f.comnd = 0x20 ∨ f.comnd = 0x21 ∨ f.comnd = 0x23 ∨ f.comnd = 0x24
      ∨ f.comnd = 0x2A ∨ f.comnd = 0x2B) :
    ∃ s1, sio_process s f x = .ok s1 ∧
      s1.protocol = (if x.validUrl then x.created else none) ∧
      s1.rateTimerHandle = s.rateTimerHandle ∧
      s1.channelMode = s.channelMode ∧
      s1.json = s.json ∧ s1.neon = s.neon ∧
      s1.log = s.log ++ ([Event.ack, Event.ack, Event.toPeripheral 256]
        ++ (if x.validUrl then
              (match x.created with
               | none => [Event.error, Event.error]
               | some _ => [Event.created, Event.pidempotent80,
                   (if x.idempotentRet then Event.error else Event.complete)])
            else [Event.error, Event.error])) := by
  cases hv : x.validUrl <;> cases hcr : x.created <;> cases hr : x.idempotentRet <;>
    rcases hc with h | h | h | h | h | h <;>
    simp [sio_process, sio_special, do_inquiry, inquiry_default, sio_special_80,
      sio_do_idempotent_command_80, parse_and_instantiate_protocol, create_devicespec,
      instantiate_protocol, bus_to_peripheral, sio_ack, sio_error, sio_complete, emit,
      hidle, h, hv, hcr, hr, SPECIAL_BUFFER_SIZE]

/-- Witness for the amended C3: the delete special in the initial state. -/
theorem idempotent_from_idle_witness :
    ∃ s1, sio_process init deleteFrame Ext.openOk = .ok s1 ∧
      s1.protocol = some Protocol.fresh ∧
      s1.rateTimerHandle = false ∧
      s1.channelMode = ChannelMode.PROTOCOL ∧
      s1.json = Ptr.null ∧ s1.neon = Ptr.null ∧
      s1.log = [Event.ack, Event.ack, Event.toPeripheral 256, Event.created,
        Event.pidempotent80, Event.complete] :=
  idempotent_from_idle init deleteFrame Ext.openOk rfl (Or.inr (Or.inl rfl))

/-! ## Channel mode -/

/-- C4 fails as stated: in the initial (Idle) state the set-channel-mode special
0xFC with aux2 = 1 is accepted and leaves the device Idle in mode Json. -/
theorem json_mode_while_idle :
    ∃ s1, run init [Input.command jsonModeFrame Ext.quiet] = .ok s1 ∧
      s1.protocol = none ∧ s1.channelMode = ChannelMode.JSON ∧
      signals s1.log = [Event.ack, Event.complete] :=
  ⟨_, rfl, rfl, rfl, rfl⟩

/-- C4 amended: in every state reachable from the initial state by commands,
polls and timer ticks, the channel mode is Json or Neon only if the sequence
contains a set-channel-mode special (0xFC with aux2 = 1 or 2) after which no Open
was issued; a live handler is not required. -/
theorem view_mode_only_after_set_channel_mode (is : List Input) (s : State)
    (h : run init is = .ok s) (hm : s.channelMode ≠ ChannelMode.PROTOCOL) :
    ∃ pre i post, is = pre ++ i :: post ∧ i.setsViewMode = true ∧
      ∀ j ∈ post, j.isOpen = false :=
  run_mode is init s rfl h hm

/-- Witness for the amended C4: the run that sets mode Json in the Idle state. -/
theorem view_mode_only_after_set_channel_mode_witness :
    ∃ pre i post, [Input.command jsonModeFrame Ext.quiet] = pre ++ i :: post ∧
      i.setsViewMode = true ∧ ∀ j ∈ post, j.isOpen = false :=
  view_mode_only_after_set_channel_mode [Input.command jsonModeFrame Ext.quiet] _ rfl
    (by decide)

/-! ## Force-status -/

theorem json_reads_remaining (sizes : List Nat) (s : State) :
    (json_reads s sizes).json_bytes_remaining = s.json_bytes_remaining - sizes.sum := by
  induction sizes generalizing s with
  | nil => simp [json_reads]
  | cons n rest ih =>
    have h : json_reads s (n :: rest) = json_reads (sio_read_channel_json s n).1 rest := rfl
    rw [h, ih]
    unfold sio_read_channel_json
    split_ifs with hn
    · simp only [List.sum_cons]; omega
    · simp only [List.sum_cons]; omega

theorem neon_reads_remaining (sizes : List Nat) (s : State) :
    (neon_reads s sizes).neon_bytes_remaining = s.neon_bytes_remaining - sizes.sum := by
  induction sizes generalizing s with
  | nil => simp [neon_reads]
  | cons n rest ih =>
    have h : neon_reads s (n :: rest) = neon_reads (sio_read_channel_neon s n).1 rest := rfl
    rw [h, ih]
    unfold sio_read_channel_neon
    split_ifs with hn
    · simp only [List.sum_cons]; omega
    · simp only [List.sum_cons]; omega

/-- C11: for each virtual view, for every starting count and every sequence of
read sizes, applying the view's channel read for each size in turn leaves the
remaining count equal to `max 0 (K - (s1 + ... + sm))` (computed in the
integers), and every such read reports no error. -/
theorem view_read_accounting (s : State) (sizes : List Nat) (n : Nat) :
    ((json_reads s sizes).json_bytes_remaining : Int)
        = max 0 ((s.json_bytes_remaining : Int) - (sizes.sum : Int)) ∧
    ((neon_reads s sizes).neon_bytes_remaining : Int)
        = max 0 ((s.neon_bytes_remaining : Int) - (sizes.sum : Int)) ∧
    (sio_read_channel_json s n).2 = false ∧
    (sio_read_channel_neon s n).2 = false := by
  refine ⟨?_, ?_, ?_, ?_⟩
  · rw [json_reads_remaining]; omega
  · rw [neon_reads_remaining]; omega
  · unfold sio_read_channel_json; split_ifs <;> rfl
  · unfold sio_read_channel_neon; split_ifs <;> rfl

/-! ## Inquiry -/

theorem inquiry_default_eq_spec (s : State) (c : Nat) :
    inquiry_default s c = spec_inquiry_table s.channelMode c := by
  by_cases h0 : c = 0x20
  · subst h0
    cases hm : s.channelMode <;> simp [inquiry_default, spec_inquiry_table, hm]
  by_cases h1 : c = 0x21
  · subst h1
    cases hm : s.channelMode <;> simp [inquiry_default, spec_inquiry_table, hm]
  by_cases h2 : c = 0x23
  · subst h2
    cases hm : s.channelMode <;> simp [inquiry_default, spec_inquiry_table, hm]
  by_cases h3 : c = 0x24
  · subst h3
    cases hm : s.channelMode <;> simp [inquiry_default, spec_inquiry_table, hm]
  by_cases h4 : c = 0x2A
  · subst h4
    cases hm : s.channelMode <;> simp [inquiry_default, spec_inquiry_table, hm]
  by_cases h5 : c = 0x2B
  · subst h5
    cases hm : s.channelMode <;> simp [inquiry_default, spec_inquiry_table, hm]
  by_cases h6 : c = 0x2C
  · subst h6
    cases hm : s.channelMode <;> simp [inquiry_default, spec_inquiry_table, hm]
  by_cases h7 : c = 0xFD
  · subst h7
    cases hm : s.channelMode <;> simp [inquiry_default, spec_inquiry_table, hm]
  by_cases h8 : c = 0xFE
  · subst h8
    cases hm : s.channelMode <;> simp [inquiry_default, spec_inquiry_table, hm]
  by_cases h9 : c = 0xFC
  · subst h9
    cases hm : s.channelMode <;> simp [inquiry_default, spec_inquiry_table, hm]
  by_cases h10 : c = 0x30
  · subst h10
    cases hm : s.channelMode <;> simp [inquiry_default, spec_inquiry_table, hm]
  by_cases h11 : c = 90
  · subst h11
    cases hm : s.channelMode <;> simp [inquiry_default, spec_inquiry_table, hm]
  by_cases h12 : c = 84
  · subst h12
    cases hm : s.channelMode <;> simp [inquiry_default, spec_inquiry_table, hm]
  by_cases h13 : c = 80
  · subst h13
    cases hm : s.channelMode <;> simp [inquiry_default, spec_inquiry_table, hm]
  by_cases h14 : c = 81
  · subst h14
    cases hm : s.channelMode <;> simp [inquiry_default, spec_inquiry_table, hm]
  by_cases h15 : c = 78
  · subst h15
    cases hm : s.channelMode <;> simp [inquiry_default, spec_inquiry_table, hm]
  simp [inquiry_default, spec_inquiry_table, h0, h1, h2, h3, h4, h5, h6, h7, h8, h9, h10, h11, h12, h13, h14, h15]

/-- C14: for every opcode and every channel mode, `do_inquiry` yields the value
of the default table (as worded by the specification) when no handler exists or
the handler answers 0xFF, and the handler's answer otherwise. -/
theorem do_inquiry_result (s : State) (x : Ext) (c : Nat) :
    (do_inquiry s x c).inq_dstats =
      (if s.protocol = none ∨ x.inquiry = 0xFF then spec_inquiry_table s.channelMode c
       else x.inquiry) ∧
    (do_inquiry s x c).channelMode = s.channelMode ∧
    (do_inquiry s x c).protocol = s.protocol := by
  refine ⟨?_, (kept_do_inquiry s x c).2, (kept_do_inquiry s x c).1⟩
  unfold do_inquiry
  cases hp : s.protocol with
  | none => simp [inquiry_default_eq_spec]
  | some p =>
    by_cases hx : x.inquiry = 0xFF
    · simp [hx, emit, inquiry_default_eq_spec]
    · simp [hx, emit]

/-! ## Poll -/

/-- C18: a poll drives PROCEED exactly when a handler is live, it enables
interrupts, and `forceStatus` is set or the polled status has bytes waiting or
reports the connection closed; the handler's status is polled (and stored)
exactly when a handler is live, enables interrupts and `forceStatus` is not set,
so with no handler or interrupts disabled the line is not driven and the stored
status is unchanged, and with `forceStatus` set the status is not polled. -/
theorem poll_interrupt_characterised (s : State) (x : Ext) :
    (sio_poll_interrupt s x).log = s.log
      ++ (if pollAsksStatus s then [Event.pstatus] else [])
      ++ (if pollDrivesProceed s x then [Event.proceed s.interruptProceed] else []) ∧
    (sio_poll_interrupt s x).status = (if pollAsksStatus s then x.statusOut else s.status) := by
  unfold sio_poll_interrupt pollAsksStatus pollDrivesProceed
  cases hp : s.protocol with
  | none => simp
  | some p =>
    by_cases hc : 0 < x.statusOut.rxBytesWaiting ∨ x.statusOut.connected = 0 <;>
      cases hi : p.interruptEnable <;> cases hf : p.forceStatus <;>
      simp [sio_assert_interrupt, emit, hi, hf, hc]

/-! ## Json view: read then status -/

/-- C12 fails as stated: after Open, switching to the Json view and a query
yielding `abcd`, a Read of 4 bytes delivers `abcd` with COMPLETE, and the Status
that follows sends 0, 0, 0, 136: connected is 0, not 1. -/
theorem json_status_after_full_read :
    ∃ s1, run init [Input.command openFrame Ext.openOk, Input.command jsonModeFrame Ext.quiet,
        Input.command queryFrame Ext.queryAbcd, Input.command readFrame4 Ext.quiet,
        Input.command statusFrame Ext.quiet] = .ok s1 ∧
      s1.log.drop 17 = [Event.ack, Event.complete, Event.toComputer [97, 98, 99, 100] 4,
        Event.ack, Event.forceStatus false, Event.complete,
        Event.toComputer [0, 0, 0, 136] 4] :=
  ⟨_, rfl, rfl⟩

theorem bus_to_computer_receiveBuffer (s : State) (b : List Nat) (n : Nat) (err : Bool) :
    (bus_to_computer s b n err).receiveBuffer = s.receiveBuffer := by
  cases err <;> rfl

theorem bus_to_computer_log (s : State) (b : List Nat) (n : Nat) (err : Bool) :
    (bus_to_computer s b n err).log
      = s.log ++ [if err then Event.error else Event.complete, Event.toComputer b n] := by
  cases err <;> simp [bus_to_computer, sio_error, sio_complete, emit]

/-- The state a Read leaves when the dispatch produced the state `r` and the
verdict `err` and `n` bytes are handed to the bus. -/
theorem sio_read_within (s : State) (x : Ext) (p : Protocol)
    (hp : s.protocol = some p)
    (hle : sio_get_aux s
      ≤ (sio_read_channel (sio_ack s) x (sio_get_aux s)).1.receiveBuffer.length) :
    ∃ s1, sio_read s x = .ok s1 ∧
      s1.log = (sio_read_channel (sio_ack s) x (sio_get_aux s)).1.log
        ++ [if (sio_read_channel (sio_ack s) x (sio_get_aux s)).2 then Event.error
            else Event.complete,
          Event.toComputer
            ((sio_read_channel (sio_ack s) x (sio_get_aux s)).1.receiveBuffer.take
              (sio_get_aux s)) (sio_get_aux s)] ∧
      s1.receiveBuffer =
        (sio_read_channel (sio_ack s) x (sio_get_aux s)).1.receiveBuffer.drop (sio_get_aux s) ∧
      s1.protocol = (sio_read_channel (sio_ack s) x (sio_get_aux s)).1.protocol ∧
      s1.channelMode = (sio_read_channel (sio_ack s) x (sio_get_aux s)).1.channelMode ∧
      s1.json_bytes_remaining
        = (sio_read_channel (sio_ack s) x (sio_get_aux s)).1.json_bytes_remaining := by
  have hp1 : (sio_ack s).protocol = some p := hp
  unfold sio_read
  simp only [hp1]
  rw [if_pos (Nat.le_succ_of_le hle), List.take_append_of_le_length hle]
  refine ⟨_, rfl, ?_, ?_, ?_, ?_, ?_⟩
  · exact bus_to_computer_log _ _ _ _
  · simp only [bus_to_computer_receiveBuffer]
  · cases (sio_read_channel (sio_ack s) x (sio_get_aux s)).2 <;> rfl
  · cases (sio_read_channel (sio_ack s) x (sio_get_aux s)).2 <;> rfl
  · cases (sio_read_channel (sio_ack s) x (sio_get_aux s)).2 <;> rfl

/-- C12 amended: for every K (the length of `buf`), in Json mode with a live handler,
`json_bytes_remaining = K` and K bytes `buf` at the front of the receive buffer,
a Read of K bytes delivers exactly `buf` with COMPLETE and removes it from the
buffer, and the following Status sends the four bytes 0, 0, 0, 136 with COMPLETE
(no bytes waiting, connected = 0, error = 136). -/
theorem json_read_then_status (s : State) (p : Protocol) (buf rest : List Nat)
    (fR fS : Frame) (x xs : Ext)
    (hp : s.protocol = some p) (hm : s.channelMode = ChannelMode.JSON)
    (hj : s.json_bytes_remaining = buf.length)
    (hb : s.receiveBuffer = buf ++ rest)
    (hR : fR.comnd = 82) (hn : fR.aux2 * 256 + fR.aux1 = buf.length)
    (hS : fS.comnd = 83) :
    ∃ s1 s2, sio_process s fR x = .ok s1 ∧
      s1.log = s.log ++ [Event.ack, Event.complete, Event.toComputer buf buf.length] ∧
      s1.receiveBuffer = rest ∧
      sio_process s1 fS xs = .ok s2 ∧
      s2.log = s1.log ++ [Event.ack, Event.forceStatus false, Event.complete,
        Event.toComputer [0, 0, 0, 136] 4] := by
  have haux : sio_get_aux { s with cmdFrame := fR } = buf.length := hn
  have hch : sio_read_channel (sio_ack { s with cmdFrame := fR }) x buf.length
      = ({ sio_ack { s with cmdFrame := fR } with json_bytes_remaining := 0 }, false) := by
    simp [sio_read_channel, sio_ack, emit, hm, sio_read_channel_json, hj]
  obtain ⟨s1, h1, hlog, hrx, hpr, hmo, hjb⟩ := sio_read_within { s with cmdFrame := fR } x p hp
    (by rw [haux, hch]; simp [sio_ack, emit, hb])
  rw [haux, hch] at hlog hrx hpr hmo hjb
  have hp1 : s1.protocol = some p := hpr.trans hp
  have hm1 : s1.channelMode = ChannelMode.JSON := hmo.trans hm
  refine ⟨s1, sio_status { s1 with cmdFrame := fS } xs, ?_, ?_, ?_, ?_, ?_⟩
  · simp only [sio_process, hR]
    simpa using h1
  · simpa [sio_ack, emit, hb] using hlog
  · simpa [sio_ack, emit, hb] using hrx
  · simp [sio_process, hS]
  · simp at hjb
    simp [sio_status, sio_ack, emit, hp1, sio_status_channel, hm1, sio_status_channel_json,
      bus_to_computer, sio_complete, hjb]

/-- Witness for the amended C12: the state after Open, switching to the Json
view and a query yielding `abcd`; then Read 4 and Status. -/
theorem json_read_then_status_witness :
    ∃ s1 s2,
      sio_process (stateAfter jsonAbcdInputs) readFrame4 Ext.quiet = .ok s1 ∧
      s1.log = (stateAfter jsonAbcdInputs).log
        ++ [Event.ack, Event.complete, Event.toComputer [97, 98, 99, 100] 4] ∧
      s1.receiveBuffer = [] ∧
      sio_process s1 statusFrame Ext.quiet = .ok s2 ∧
      s2.log = s1.log ++ [Event.ack, Event.forceStatus false, Event.complete,
        Event.toComputer [0, 0, 0, 136] 4] :=
  json_read_then_status (stateAfter jsonAbcdInputs) { Protocol.fresh with forceStatus := true }
    [97, 98, 99, 100] [] readFrame4 statusFrame Ext.quiet Ext.quiet rfl rfl rfl rfl rfl rfl rfl

/-! ## Prefix edits -/

theorem pathLocations_snoc (a : List Nat) (c : Nat) :
    pathLocations (a ++ [c]) = pathLocations a ++ (if c = 47 then [a.length] else []) := by
  unfold pathLocations
  rw [List.length_append, List.length_singleton, List.range_succ, List.filter_append]
  congr 1
  · apply List.filter_congr
    intro i hi
    rw [List.mem_range] at hi
    rw [List.getD_append _ _ _ _ hi]
  · simp [List.getD_append_right]
    split_ifs <;> simp_all

theorem pathLocations_append_of_not_mem (seg a : List Nat) (h : 47 ∉ seg) :
    pathLocations (a ++ seg) = pathLocations a := by
  induction seg generalizing a with
  | nil => simp
  | cons b rest ih =>
    have hb : b ≠ 47 := fun hb => h (hb ▸ List.mem_cons_self _ _)
    have hr : 47 ∉ rest := fun hr => h (List.mem_cons_of_mem _ hr)
    have : a ++ b :: rest = (a ++ [b]) ++ rest := by simp
    rw [this, ih _ hr, pathLocations_snoc, if_neg hb, List.append_nil]

theorem prefix_devance_strips (q seg : List Nat) (h : 47 ∉ seg) :
    prefix_devance (q ++ [47] ++ seg ++ [47]) = .ok (q ++ [47]) := by
  unfold prefix_devance
  have hl : (q ++ [47] ++ seg ++ [47]).getLast? = some 47 :=
    List.getLast?_concat _
  rw [hl]
  simp only [if_true]
  rw [pathLocations_snoc, if_pos rfl, List.dropLast_concat,
    pathLocations_append_of_not_mem seg _ h, pathLocations_snoc, if_pos rfl,
    List.getLast?_concat]
  simp only
  have ht : q ++ [47] ++ seg ++ [47] = (q ++ [47]) ++ (seg ++ [47]) := by simp
  rw [ht, List.take_left' (by simp)]

/-- C16: for every current prefix `P ++ seg ++ "/"` where `P` ends in `'/'` and
`seg` is a segment without `'/'` (empty or not), the edit for `".."` and for `"<"`
hands exactly `P` to the canonicalizer; a set-prefix command whose payload after
the device part is `".."` or `"<"` returns with COMPLETE and the prefix set to
the canonical form of `P`. -/
theorem set_prefix_dotdot_strips_last_segment (s : State) (x : Ext)
    (P seg str0 : List Nat)
    (hP : P.getLast? = some 47) (hns : 47 ∉ seg)
    (hpfx : s.pfx = P ++ seg ++ [47])
    (hpay : cstring (util_devicespec_fix_9b (bus_to_peripheral s x 256).2) = .ok str0)
    (hstr : str0.drop (incr (find str0 58 0)) = [46, 46]
      ∨ str0.drop (incr (find str0 58 0)) = [60]) :
    prefix_edit s.pfx [46, 46] = .ok P ∧ prefix_edit s.pfx [60] = .ok P ∧
    ∃ s1, sio_set_prefix s x = .ok s1 ∧ s1.pfx = x.canonical P ∧
      s1.log = s.log ++ [Event.toPeripheral 256, Event.complete] := by
  obtain ⟨q, rfl⟩ : ∃ q, P = q ++ [47] := by
    rcases List.eq_nil_or_concat P with h | ⟨q, c, h⟩
    · subst h; simp at hP
    · subst h
      rw [List.concat_eq_append, List.getLast?_concat] at hP
      exact ⟨q, by rw [List.concat_eq_append, Option.some.inj hP]⟩
  have hd := prefix_devance_strips q seg hns
  have h1 : prefix_edit s.pfx [46, 46] = .ok (q ++ [47]) := by
    rw [hpfx]; simp only [prefix_edit]; simpa using hd
  have h2 : prefix_edit s.pfx [60] = .ok (q ++ [47]) := by
    rw [hpfx]; simp only [prefix_edit]; simpa using hd
  have h3 : prefix_edit (bus_to_peripheral s x 256).1.pfx
      (str0.drop (incr (find str0 58 0))) = .ok (q ++ [47]) := by
    rcases hstr with h | h <;> rw [h]
    · exact h1
    · exact h2
  refine ⟨h1, h2, ?_⟩
  unfold sio_set_prefix
  simp only [hpay, h3]
  exact ⟨_, rfl, rfl, by simp [sio_complete, emit, bus_to_peripheral]⟩

/-- Witness for C16: scenario 3, prefix `TNFS://h/a/b/c/` and payload `N:..`. -/
theorem set_prefix_dotdot_strips_last_segment_witness :
    prefix_edit (ascii "TNFS://h/a/b/c/") [46, 46] = .ok (ascii "TNFS://h/a/b/") ∧
    prefix_edit (ascii "TNFS://h/a/b/c/") [60] = .ok (ascii "TNFS://h/a/b/") ∧
    ∃ s1, sio_set_prefix (prefixState (ascii "TNFS://h/a/b/c/")) (Ext.sends (ascii "N:.."))
        = .ok s1 ∧
      s1.pfx = ascii "TNFS://h/a/b/" ∧
      s1.log = [Event.toPeripheral 256, Event.complete] :=
  (set_prefix_dotdot_strips_last_segment (prefixState (ascii "TNFS://h/a/b/c/"))
    (Ext.sends (ascii "N:..")) (ascii "TNFS://h/a/b/") (ascii "c") (ascii "N:..")
    rfl (by decide) rfl rfl (Or.inl rfl))

/-- C15: for the prefix `TNFS://h/a/b/c/` the edit for `"/"` and for `">"` hands
`TNFS://h/a` to the canonicalizer, not the host root `TNFS://h/`; the set-prefix
command with payload `N:/` stores that value; and for the prefix `TNFS://h` the
edit yields `TNFS:`. -/
theorem set_prefix_slash_keeps_first_segment :
    prefix_edit (ascii "TNFS://h/a/b/c/") [47] = .ok (ascii "TNFS://h/a") ∧
    prefix_edit (ascii "TNFS://h/a/b/c/") [62] = .ok (ascii "TNFS://h/a") ∧
    (∃ s1, sio_process (prefixState (ascii "TNFS://h/a/b/c/")) setPrefixFrame
        (Ext.sends (ascii "N:/")) = .ok s1 ∧ s1.pfx = ascii "TNFS://h/a") ∧
    prefix_edit (ascii "TNFS://h") [47] = .ok (ascii "TNFS:") :=
  ⟨rfl, rfl, ⟨_, rfl, rfl⟩, rfl⟩

/-- For a prefix shorter than 256 bytes the get-prefix frame is the prefix,
one 0x9B and NULs up to 256 bytes, sent with COMPLETE. -/
theorem sio_get_prefix_short (s : State) (h : s.pfx.length < 256) :
    sio_get_prefix s = .ok (bus_to_computer s
      (s.pfx ++ [0x9B] ++ List.replicate (255 - s.pfx.length) 0) 256 false) ∧
    (s.pfx ++ [0x9B] ++ List.replicate (255 - s.pfx.length) 0).length = 256 := by
  unfold sio_get_prefix
  rw [if_pos h]
  refine ⟨rfl, ?_⟩
  simp
  omega

/-- C17: two set-prefix commands (a replacement of 209 bytes and an appended
name of 100 bytes) leave a prefix of 309 bytes, and the get-prefix special that
follows copies it into the 256-byte frame unchecked: the copy and the 0x9B
terminator fall outside the buffer. -/
theorem get_prefix_overflows_frame :
    (∃ s1, run init longPrefixInputs = .ok s1 ∧ s1.pfx.length = 309) ∧
    sio_process (stateAfter longPrefixInputs) getPrefixFrame Ext.quiet
      = .error Fault.outOfRange :=
  ⟨⟨_, rfl, rfl⟩, rfl⟩

/-! ## Reads past the end of the receive buffer -/

/-- C13: in Json mode with the two bytes `ab` in the receive buffer a Read of 4
bytes hands 4 bytes starting at the buffer's storage to the bus: the read runs
past the end of the buffer instead of delivering what the buffer holds. -/
theorem read_past_buffer_end :
    (∃ s0, run init jsonAbInputs = .ok s0 ∧ s0.channelMode = ChannelMode.JSON ∧
      s0.receiveBuffer = [97, 98] ∧ s0.json_bytes_remaining = 2) ∧
    sio_process (stateAfter jsonAbInputs) readFrame4 Ext.quiet = .error Fault.outOfRange :=
  ⟨⟨_, rfl, rfl, rfl, rfl⟩, rfl⟩

/-! ## Comma-separated devicespecs -/

/-- C19: for `N1:FOO.TXT,N2:FOO.TXT` on device 0x72 the code keeps
`N1:FOO.TXT`, the first token that starts with `N`, not `N2:FOO.TXT`: the digit
of a token is never compared with the device id. -/
theorem comma_spec_takes_first_n_token :
    processCommaFromDevicespec (ascii "N1:FOO.TXT,N2:FOO.TXT") 0x72 = ascii "N1:FOO.TXT" ∧
    processCommaFromDevicespec (ascii "N1:FOO.TXT,N2:FOO.TXT") 0x72 ≠ ascii "N2:FOO.TXT" :=
  ⟨by decide, by decide⟩

/-! ## View helpers that do not exist -/

/-- C26: in the initial state the set-channel-mode special (aux2 = 1) is
accepted, and the `'P'` that follows is dispatched to `sio_parse_json` although
no handler is live and no helper was ever created: the call goes through the
null `json` pointer.  After an idempotent special and the switch to the Json
view the same `'P'` faults as well. -/
theorem parse_without_helper :
    (∃ s1, run init [Input.command jsonModeFrame Ext.quiet] = .ok s1 ∧
      s1.protocol = none ∧ s1.json = Ptr.null ∧ s1.channelMode = ChannelMode.JSON) ∧
    run init parseWhileIdleInputs = .error Fault.nullDeref ∧
    (∃ s2, run init idempotentThenJsonInputs = .ok s2 ∧ s2.protocol.isSome = true ∧
      s2.json = Ptr.null) ∧
    sio_process (stateAfter idempotentThenJsonInputs) parseFrame Ext.quiet
      = .error Fault.nullDeref :=
  ⟨⟨_, rfl, rfl, rfl, rfl⟩, rfl, ⟨_, rfl, rfl, rfl⟩, rfl⟩

/-! ## The `..` edit on short prefixes -/

/-- When the `..` edit returns, its result is a leading part of the old prefix. -/
theorem prefix_devance_prefix (p r : List Nat) (h : prefix_devance p = .ok r) : r <+: p := by
  unfold prefix_devance at h
  split at h
  · cases h
  · simp only at h
    split at h
    · cases h
    · cases h; exact List.take_prefix _ _

/-- C27: for the empty prefix, for a prefix without `'/'` and for the prefix `/`
the `..` edit reads outside the string or the position list: the last character
of an empty string, respectively the last element of an empty position list.
The set-prefix command with payload `N:..` faults already in the initial state,
whose prefix is empty. -/
theorem dotdot_out_of_range :
    prefix_edit [] [46, 46] = .error Fault.outOfRange ∧
    prefix_edit (ascii "abc") [46, 46] = .error Fault.outOfRange ∧
    prefix_edit (ascii "/") [46, 46] = .error Fault.outOfRange ∧
    prefix_edit [] [60] = .error Fault.outOfRange ∧
    sio_process init setPrefixFrame (Ext.sends (ascii "N:..")) = .error Fault.outOfRange :=
  ⟨rfl, rfl, rfl, rfl, rfl⟩

/-! ## Write in a view mode -/

end SioNetwork

namespace NeonMake

theorem lower_or_eq_xor (c : Nat) (h1 : 96 < c) (h2 : c < 123) : c ||| 0x80 = c ^^^ 0x80 := by
  interval_cases c <;> rfl

/-- C25: for every byte string, `compile` keeps the length, and its i-th byte is
the i-th input byte with bit 7 toggled when that byte is a lower-case letter
(0x61..0x7A) and the input byte itself otherwise. -/
theorem compile_toggles_lowercase (adf : List Nat) :
    (compile adf).length = adf.length ∧
    compile adf = adf.map (fun c => if 0x61 ≤ c ∧ c ≤ 0x7A then c ^^^ 0x80 else c) ∧
    ∀ i : Nat, (compile adf)[i]? =
      (adf[i]?).map (fun c => if 0x61 ≤ c ∧ c ≤ 0x7A then c ^^^ 0x80 else c) := by
  have hmap : compile adf
      = adf.map (fun c => if 0x61 ≤ c ∧ c ≤ 0x7A then c ^^^ 0x80 else c) := by
    unfold compile
    apply List.map_congr_left
    intro c _
    by_cases h : 96 < c ∧ c < 123
    · rw [if_pos h, if_pos ⟨by omega, by omega⟩, lower_or_eq_xor c h.1 h.2]
    · rw [if_neg h, if_neg (by omega)]
  refine ⟨by simp [compile], hmap, fun i => ?_⟩
  rw [hmap, List.getElem?_map]

end NeonMake

namespace GoogleDrive

/-! ## Directory cache -/

/-- C21 fails in the code: with an expired access token and a usable refresh
token, `make_api_request("/files")` sends three requests: the GET to the API
with the old token, the POST to the token endpoint, and the retry.  The retry
is sent to the client's current target, which the refresh has pointed at the
token endpoint, and it carries the form content type of the refresh; it is not
the first request with the new token.  Without a refresh token a 401 is followed
by no refresh request and no retry. -/
theorem retry_goes_to_token_endpoint :
    (make_api_request World.expired Drive.ready "/files".toList "GET".toList []).1.sent
      = [{ url := GDRIVE_API_BASE ++ "/files".toList, method := "GET".toList,
           headers := [("Authorization".toList, "Bearer tok".toList)], body := [] },
         { url := OAUTH_TOKEN_URL, method := "POST".toList,
           headers := [("Content-Type".toList, "application/x-www-form-urlencoded".toList)],
           body := "refresh_token=ref&client_id=id&client_secret=secret&grant_type=refresh_token".toList },
         { url := OAUTH_TOKEN_URL, method := "GET".toList,
           headers := [("Content-Type".toList, "application/x-www-form-urlencoded".toList),
                       ("Authorization".toList, "Bearer new".toList)], body := [] }] ∧
    (make_api_request World.expired Drive.ready "/files".toList "GET".toList []).2 = true ∧
    OAUTH_TOKEN_URL ≠ GDRIVE_API_BASE ++ "/files".toList ∧
    (make_api_request World.denied Drive.noRefresh "/files".toList "GET".toList []).1.sent
      = [{ url := GDRIVE_API_BASE ++ "/files".toList, method := "GET".toList,
           headers := [("Authorization".toList, "Bearer tok".toList)], body := [] }] ∧
    (make_api_request World.denied Drive.noRefresh "/files".toList "GET".toList []).2 = false := by
  refine ⟨by decide, by decide, by decide, by decide, by decide⟩

/-! ## Listings with a malformed size -/

/-- C22 fails in the code: when the listing holds a file whose `size` is the
string `abc`, `dir_open` does not return true or false: `std::stoull` raises
`invalid_argument` and nothing catches it. -/
theorem dir_open_raises_on_bad_size :
    dir_open World.badSize Drive.ready "/".toList [] 0 = .error Exn.invalid_argument ∧
    stoull "abc".toList = .error Exn.invalid_argument := by
  exact ⟨rfl, rfl⟩

/-! ## Paths -/

theorem pieces_nil : pieces [] = [[]] := rfl

theorem pieces_cons_slash (s : Str) : pieces ('/' :: s) = [] :: pieces s := by
  simp [pieces]

theorem pieces_cons_other (c : Char) (s : Str) (h : c ≠ '/') :
    pieces (c :: s) = (c :: (pieces s).head (by simp [pieces])) :: (pieces s).tail := by
  simp [pieces, h]

theorem pieces_ne_nil (s : Str) : pieces s ≠ [] := by simp [pieces]

/-- No stretch contains a slash. -/
theorem pieces_no_slash (s : Str) : ∀ c ∈ pieces s, '/' ∉ c := by
  induction s with
  | nil => simp [pieces]
  | cons a s ih =>
    by_cases h : a = '/'
    · subst h
      rw [pieces_cons_slash]
      intro c hc
      rcases List.mem_cons.1 hc with rfl | hc
      · simp
      · exact ih c hc
    · rw [pieces_cons_other a s h]
      intro c hc
      rcases List.mem_cons.1 hc with rfl | hc
      · intro hm
        rcases List.mem_cons.1 hm with hm | hm
        · exact h hm.symm
        · exact ih _ (List.head_mem _) hm
      · exact ih c (List.mem_of_mem_tail hc)

/-- The stretches of `a/b` are those of `a` followed by those of `b`. -/
theorem pieces_append (a b : Str) : pieces (a ++ '/' :: b) = pieces a ++ pieces b := by
  induction a with
  | nil => rw [List.nil_append, pieces_cons_slash, pieces_nil]; rfl
  | cons c a ih =>
    by_cases h : c = '/'
    · subst h
      rw [List.cons_append, pieces_cons_slash, pieces_cons_slash, ih]; rfl
    · rw [List.cons_append, pieces_cons_other c _ h, pieces_cons_other c a h]
      simp only [ih]
      rw [List.head_append_of_ne_nil (pieces_ne_nil a), List.tail_append_of_ne_nil (pieces_ne_nil a)]
      rfl

/-- A string without a slash is its only stretch. -/
theorem pieces_of_no_slash (c : Str) (h : '/' ∉ c) : pieces c = [c] := by
  induction c with
  | nil => rfl
  | cons a c ih =>
    have ha : a ≠ '/' := fun e => h (by simp [e])
    have hc : '/' ∉ c := fun e => h (List.mem_cons_of_mem _ e)
    rw [pieces_cons_other a c ha]
    simp [ih hc]

theorem getlines_filter (s : Str) :
    (getlines s).filter (fun component => !component.isEmpty)
      = (pieces s).filter (fun component => !component.isEmpty) := by
  have hg : getlines s
      = if (pieces s).getLast? = some [] then (pieces s).dropLast else pieces s := rfl
  rw [hg]
  by_cases h : (pieces s).getLast? = some []
  · rw [if_pos h]
    have := List.dropLast_append_getLast? [] h
    conv_rhs => rw [← this]
    simp
  · rw [if_neg h]

/-- `split_path` keeps the non-empty stretches between slashes. -/
theorem split_path_eq (p : Str) :
    split_path p = (pieces p).filter (fun component => !component.isEmpty) := by
  cases p with
  | nil => rfl
  | cons c rest =>
    unfold split_path
    simp only
    by_cases h : c = '/'
    · subst h
      rw [if_pos rfl, getlines_filter, pieces_cons_slash]
      simp
    · rw [if_neg h, getlines_filter]

theorem split_path_append (a b : Str) :
    split_path (a ++ '/' :: b) = split_path a ++ split_path b := by
  rw [split_path_eq, split_path_eq, split_path_eq, pieces_append, List.filter_append]

theorem split_path_component (c : Str) (h0 : c ≠ []) (h : '/' ∉ c) : split_path c = [c] := by
  rw [split_path_eq, pieces_of_no_slash c h]
  cases c with
  | nil => exact absurd rfl h0
  | cons a c => simp

theorem split_path_nil : split_path [] = [] := rfl

theorem split_path_foldl (cs : List Str) (acc : Str)
    (h : ∀ c ∈ cs, c ≠ [] ∧ '/' ∉ c) :
    split_path (cs.foldl (fun result component => result ++ ('/' :: component)) acc)
      = split_path acc ++ cs := by
  induction cs generalizing acc with
  | nil => simp
  | cons c cs ih =>
    rw [List.foldl_cons, ih _ (fun x hx => h x (List.mem_cons_of_mem _ hx)),
      split_path_append, split_path_component c (h c (List.mem_cons_self _ _)).1
        (h c (List.mem_cons_self _ _)).2]
    simp

/-- C30: every component `split_path` yields is non-empty and free of slashes;
a path with one more leading slash, one more trailing slash, or a slash
doubled splits into the same components (in general the components of `a/b`
are those of `a` followed by those of `b`), so `get_file_id` sends the same
requests for it; for every list of non-empty slash-free components
`split_path (join_path cs) = cs`; `join_path` of no components is `/`, and
`split_path` of `/` is empty. -/
theorem split_join_path :
    (∀ p : Str, ∀ c ∈ split_path p, c ≠ [] ∧ '/' ∉ c) ∧
    (∀ a b : Str, split_path (a ++ '/' :: b) = split_path a ++ split_path b) ∧
    (∀ p : Str, split_path ('/' :: p) = split_path p) ∧
    (∀ p : Str, split_path (p ++ ['/']) = split_path p) ∧
    (∀ a b : Str, split_path (a ++ '/' :: '/' :: b) = split_path (a ++ '/' :: b)) ∧
    (∀ (w : World) (d : Drive) (p q : Str), split_path p = split_path q →
      get_file_id w d p = get_file_id w d q) ∧
    (∀ cs : List Str, (∀ c ∈ cs, c ≠ [] ∧ '/' ∉ c) → split_path (join_path cs) = cs) ∧
    join_path [] = ['/'] ∧ split_path ['/'] = [] := by
  refine ⟨?_, split_path_append, ?_, ?_, ?_, ?_, ?_, rfl, rfl⟩
  · intro p c hc
    rw [split_path_eq, List.mem_filter] at hc
    refine ⟨?_, pieces_no_slash p c hc.1⟩
    intro e
    subst e
    simp at hc
  · intro p
    have := split_path_append [] p
    simpa [split_path_nil] using this
  · intro p
    have := split_path_append p []
    simpa [split_path_nil] using this
  · intro a b
    rw [split_path_append, split_path_append a b]
    have := split_path_append [] b
    rw [List.nil_append] at this
    rw [this, split_path_nil, List.nil_append]
  · intro w d p q h
    unfold get_file_id
    rw [h]
  · intro cs h
    cases cs with
    | nil => rfl
    | cons c cs =>
      have hj : join_path (c :: cs)
          = (c :: cs).foldl (fun result component => result ++ ('/' :: component)) [] := rfl
      rw [hj, split_path_foldl _ _ h, split_path_nil, List.nil_append]

/-- Witness for C30: the components `a` and `bc` are joined to `/a/bc` and
recovered from it. -/
theorem split_join_path_witness :
    join_path ["a".toList, "bc".toList] = "/a/bc".toList ∧
    split_path (join_path ["a".toList, "bc".toList]) = ["a".toList, "bc".toList] ∧
    split_path "//a///bc/".toList = ["a".toList, "bc".toList] :=
  ⟨rfl, split_join_path.2.2.2.2.2.2.1 ["a".toList, "bc".toList] (by decide), by decide⟩

/-! ## The bound on rounds -/

theorem full_counter : (1 : Int) + HTTP_GET_TIMEOUT / 50 = 601 := by decide

/-- From a counter of `m + 1`, idle polls lead to the timeout after exactly `m`
sleeps. -/
theorem download_idle (polls : Nat → Poll) (m : Nat) :
    ∀ (fuel k : Nat) (c : Copy), c.cancel = false → c.tmout_counter = (m : Int) + 1 →
      (∀ j, k ≤ j → (polls j).isIdle) → m + 1 ≤ fuel →
      download fuel polls k c
        = some { tmout_counter := 0, cancel := true, got := c.got, stored := c.stored,
                 sleeps := c.sleeps + m, msgs := c.msgs ++ [Msg.timeout] } := by
  induction m with
  | zero =>
    intro fuel k c hc ht hidle hfuel
    obtain ⟨fuel, rfl⟩ : ∃ f, fuel = f + 1 := ⟨fuel - 1, by omega⟩
    obtain ⟨ha, hd⟩ := hidle k (le_refl k)
    simp [download, hc, ha, hd, ht]
  | succ m ih =>
    intro fuel k c hc ht hidle hfuel
    obtain ⟨fuel, rfl⟩ : ∃ f, fuel = f + 1 := ⟨fuel - 1, by omega⟩
    obtain ⟨ha, hd⟩ := hidle k (le_refl k)
    have hne : ¬ ((m : Int) + 1 = 0) := by omega
    have hstep : download (fuel + 1) polls k c
        = download fuel polls (k + 1)
            { c with tmout_counter := (m : Int) + 1, sleeps := c.sleeps + 1 } := by
      simp [download, hc, ha, hd, ht, hne]
    rw [hstep, ih fuel (k + 1)
      { c with tmout_counter := (m : Int) + 1, sleeps := c.sleeps + 1 } hc rfl
      (fun j hj => hidle j (by omega)) (by omega)]
    simp only [Option.some.injEq, Copy.mk.injEq, true_and, and_true]
    omega

theorem copy_blocks_no_timeout (blocks : Nat → Block) :
    ∀ (fuel i : Nat) (available : Int) (c c1 : Copy),
      copy_blocks fuel blocks i available c = some c1 →
      Msg.timeout ∉ c.msgs → Msg.timeout ∉ c1.msgs := by
  intro fuel
  induction fuel with
  | zero => intro i a c c1 h; simp [copy_blocks] at h
  | succ fuel ih =>
    intro i a c c1 h hn
    unfold copy_blocks at h
    simp only at h
    by_cases h1 : a > 0
    · rw [if_pos h1] at h
      split_ifs at h <;> first | (cases h; simpa using hn) | exact ih _ _ _ _ h hn
    · rw [if_neg h1] at h
      cases h; exact hn

/-- The timeout line is printed only after 601 idle polls in a row. -/
theorem download_timeout_idle (polls : Nat → Poll) :
    ∀ (fuel k : Nat) (c c1 : Copy),
      (c.cancel = true ∨ ∃ i : Nat, i ≤ 600 ∧ c.tmout_counter = 601 - (i : Int) ∧ i ≤ k ∧
        ∀ j, k - i ≤ j → j < k → (polls j).isIdle) →
      Msg.timeout ∉ c.msgs → download fuel polls k c = some c1 → Msg.timeout ∈ c1.msgs →
      ∃ j, ∀ m, m < 601 → (polls (j + m)).isIdle := by
  intro fuel
  induction fuel with
  | zero => intro k c c1 _ _ h; simp [download] at h
  | succ fuel ih =>
    intro k c c1 hinv hn h ht
    unfold download at h
    simp only at h
    by_cases hc : c.cancel = true
    · rw [if_pos hc] at h
      cases h; exact absurd ht hn
    rw [if_neg hc] at h
    rcases hinv with hinv | ⟨i, hi, hcnt, hik, hidle⟩
    · exact absurd hinv hc
    by_cases hd : (polls k).done = true ∧ (polls k).available = 0
    · rw [if_pos hd] at h
      cases h; exact absurd ht hn
    rw [if_neg hd] at h
    by_cases ha : (polls k).available = 0
    · rw [if_pos ha] at h
      have hnd : (polls k).done = false := by
        cases hdd : (polls k).done
        · rfl
        · exact absurd ⟨hdd, ha⟩ hd
      by_cases hz : c.tmout_counter - 1 = 0
      · refine ⟨k - 600, fun m hm => ?_⟩
        have hi6 : i = 600 := by omega
        subst hi6
        by_cases hmk : m = 600
        · subst hmk
          have : k - 600 + 600 = k := by omega
          rw [this]; exact ⟨ha, hnd⟩
        · exact hidle _ (by omega) (by omega)
      · rw [if_neg hz] at h
        refine ih (k + 1)
          { c with tmout_counter := c.tmout_counter - 1, sleeps := c.sleeps + 1 } c1
          (Or.inr ⟨i + 1, by omega, ?_, by omega, ?_⟩) hn h ht
        · show c.tmout_counter - 1 = _
          push_cast; omega
        · intro j hj1 hj2
          by_cases hjk : j = k
          · subst hjk; exact ⟨ha, hnd⟩
          · exact hidle j (by omega) (by omega)
    rw [if_neg ha] at h
    by_cases hp : (polls k).available > 0
    · rw [if_pos hp] at h
      split at h
      · cases h
      · rename_i c2 hc2
        have hn2 := copy_blocks_no_timeout _ _ _ _ _ _ hc2 hn
        refine ih (k + 1) { c2 with tmout_counter := 1 + HTTP_GET_TIMEOUT / 50 } c1
          (Or.inr ⟨0, by omega, ?_, by omega, ?_⟩) hn2 h ht
        · show (1 : Int) + HTTP_GET_TIMEOUT / 50 = _
          rw [full_counter]; rfl
        · intro j hj1 hj2; omega
    · rw [if_neg hp] at h
      refine ih (k + 1) { c with cancel := true, msgs := c.msgs ++ [Msg.wentWrong] } c1
        (Or.inl rfl) ?_ h ht
      simpa using hn

/-- C24: in the download loop of `cache_file`, from the first poll or from any
poll reached with the counter at its full value 1 + 30000/50 = 601, if every
further poll reports nothing available and the transaction not done, the loop
ends (601 rounds suffice) with the timeout line, `cancel` set, and exactly 600
more sleeps of 50 ms, which is 30000 ms.  A poll with bytes available runs the
copy loop and puts the counter back to 601 before the next poll.  Whenever the
loop ends with the timeout line, 601 polls in a row were idle. -/
theorem download_times_out_after_600_sleeps :
    (∀ (polls : Nat → Poll) (fuel k : Nat) (c : Copy), c.cancel = false →
      c.tmout_counter = 1 + HTTP_GET_TIMEOUT / 50 → (∀ j, k ≤ j → (polls j).isIdle) →
      601 ≤ fuel →
      download fuel polls k c
        = some { tmout_counter := 0, cancel := true, got := c.got, stored := c.stored,
                 sleeps := c.sleeps + 600, msgs := c.msgs ++ [Msg.timeout] }) ∧
    (600 : Int) * 50 = HTTP_GET_TIMEOUT ∧
    Copy.start.tmout_counter = 601 ∧
    (∀ (polls : Nat → Poll) (fuel k : Nat) (c : Copy), c.cancel = false →
      (polls k).available > 0 →
      download (fuel + 1) polls k c
        = (copy_blocks fuel (polls k).blocks 0 (polls k).available c).bind
            (fun c1 => download fuel polls (k + 1) { c1 with tmout_counter := 601 })) ∧
    (∀ (polls : Nat → Poll) (fuel : Nat) (c1 : Copy),
      download fuel polls 0 Copy.start = some c1 → Msg.timeout ∈ c1.msgs →
      ∃ j, ∀ m, m < 601 → (polls (j + m)).isIdle) := by
  refine ⟨?_, by decide, by decide, ?_, ?_⟩
  · intro polls fuel k c hc ht hidle hfuel
    exact download_idle polls 600 fuel k c hc (by rw [ht, full_counter]; rfl) hidle (by omega)
  · intro polls fuel k c hc hp
    have hne : ¬ ((polls k).available = 0) := by omega
    rw [← full_counter]
    conv_lhs => unfold download
    simp only [hc, hne, and_false, if_false, hp, if_true]
    cases copy_blocks fuel (polls k).blocks 0 (polls k).available c <;> rfl
  · intro polls fuel c1 h ht
    exact download_timeout_idle polls fuel 0 Copy.start c1
      (Or.inr ⟨0, by omega, by decide, le_refl 0, fun j _ hj => absurd hj (by omega)⟩)
      (by simp [Copy.start]) h ht

/-- Witness for C24: a client that never has anything and is never done times
out after 600 sleeps, and `cache_file` then returns a null handle; when 10
bytes arrive at poll 600, after 600 sleeps, the counter starts again and the
timeout comes after 1200 sleeps. -/
theorem download_times_out_after_600_sleeps_witness :
    download 601 Transfer.stalled.polls 0 Copy.start
      = some { tmout_counter := 0, cancel := true, got := 0, stored := 0, sleeps := 600,
               msgs := [Msg.timeout] } ∧
    (fetch 601 World.oneFile Transfer.stalled).handle = none ∧
    (fetch 601 World.oneFile Transfer.stalled).sleeps = 600 ∧
    download 1300 Transfer.lateBlock.polls 0 Copy.start
      = some { tmout_counter := 0, cancel := true, got := 10, stored := 10, sleeps := 1200,
               msgs := [Msg.timeout] } := by
  refine ⟨?_, by decide, by decide, by decide⟩
  exact download_times_out_after_600_sleeps.1 Transfer.stalled.polls 601 0 Copy.start rfl rfl
    (fun _ _ => ⟨rfl, rfl⟩) (le_refl _)

/-! ## Download failures and the file cache -/

end GoogleDrive
